import Mathlib

/-!
# FizzBuzz over the Fibonacci numbers (`fizzbuzz/fizzbuzz.cpp`)

A shallow embedding of the program: the table of known Fibonacci-prime
indices and its binary-search lookup (`is_FiboPrime`), the per-index printer
(`spit_fizz`), the fixed-width generator loop (`fibo_seq_X`) and the driver
(`main`).  Console output is modelled as the string of characters written;
fixed-width big integers are natural numbers together with the operand width
`W` in bits; the `uint32_t` loop counter is a natural number reduced modulo
`2^32` on increment.
-/

namespace FizzBuzz

/-! ## Reference sequence -/

/-- The classic Fibonacci numbers, `F(1) = F(2) = 1`, `F(k) = F(k-1) + F(k-2)`;
index `0` (never used by the program) is given the conventional value `0`. -/
def Fib : Nat → Nat
  | 0 => 0
  | 1 => 1
  | k + 2 => Fib (k + 1) + Fib k

/-! ## Configuration -/

/-- `#define MY_UINT_BITS 8192`. -/
def MY_UINT_BITS : Nat := 8192

/-! ## The table of known Fibonacci-prime indices -/

/-- `static const uint32_t FiboPrimes[]` (copied into the vector `FPvec`). -/
def FiboPrimes : List Nat :=
  [3,4,5,7,11,13,17,23,29,43,47,83,131,137,359,431,
   433,449,509,569,571,2971,4723,5387,9311,9677,
   14431,25561,30757,35999,37511,50833,81839,104911,
   130021,148091,201107,397379,433781,590041,593689,
   604711,931517,1049897,1285607,1636007,1803059,
   1968721,2904353]

/-- `std::vector<uint32_t> FPvec (FiboPrimes, FiboPrimes + sizeof ...)`. -/
def FPvec : List Nat := FiboPrimes

/-- The loop of `std::lower_bound` over the index range `[first, first + len)`
of `xs`: halve `len`, move right past `middle` when `xs[middle] < val`.
The recursion is structural on `fuel`; `len` at least halves in every round,
so `fuel = len` rounds always suffice (`lower_bound_loop_fuel`). -/
def lower_bound_loop (xs : List Nat) (val : Nat) : Nat → Nat → Nat → Nat
  | 0, first, _ => first
  | fuel + 1, first, len =>
    if 0 < len then
      let half := len / 2
      let middle := first + half
      if xs.getD middle 0 < val then
        lower_bound_loop xs val fuel (middle + 1) (len - half - 1)
      else
        lower_bound_loop xs val fuel first half
    else first

/-- `std::lower_bound(begin, end, val)` as an index into `xs`. -/
def lower_bound (xs : List Nat) (val : Nat) : Nat :=
  lower_bound_loop xs val xs.length 0 xs.length

/-- `std::binary_search(begin, end, val)`:
`i = lower_bound(...); return i != end && !(val < *i)`. -/
def binary_search (xs : List Nat) (val : Nat) : Bool :=
  let i := lower_bound xs val
  decide (i ≠ xs.length) && !decide (val < xs.getD i 0)

/-- `bool is_FiboPrime(uint32_t n)`. -/
def is_FiboPrime (n : Nat) : Bool :=
  let exists_ := binary_search FPvec n
  exists_

/-! ## The printer -/

/-- The decimal numeral written by `std::cout <<` for an unsigned value. -/
def dec (v : Nat) : String := Nat.repr v

/-- `void spit_fizz(uint32_t n, const mUint_t& num, bool p_en)`: the
characters written to `std::cout`. -/
def spit_fizz (n num : Nat) (p_en : Bool) : String :=
  let empty_line := true
  let out := ""
  let out := if p_en then out ++ dec n ++ "  " else out
  let (out, empty_line) :=
    if num % 3 = 0 then ((if p_en then out ++ "Buzz   " else out), false)
    else (out, empty_line)
  let (out, empty_line) :=
    if num % 5 = 0 then ((if p_en then out ++ "Fizz   " else out), false)
    else (out, empty_line)
  let (out, empty_line) :=
    if empty_line && is_FiboPrime n then
      ((if p_en then out ++ "BuzzFizz!!  " else out), false)
    else (out, empty_line)
  let (out, _) :=
    if empty_line then ((if p_en then out ++ dec num else out), false)
    else (out, empty_line)
  if p_en then out ++ "\n" else out

/-! ## The generator -/

/-- Modelled from the spec: `ttmath::UInt::Add` is not among the sources.
Fixed-width addition on `W`-bit operands that reports a carry-out instead of
wrapping: it returns the new value of the receiver and the carry; on carry the
receiver keeps its prior value.  (`fibo_seq_X` never reads the receiver again
after a carry.) -/
def UInt_Add (W : Nat) (self ss2 : Nat) : Nat × Bool :=
  if self + ss2 < 2 ^ W then (self + ss2, false) else (self, true)

/-- The variables of `fibo_seq_X` that live across loop iterations, the
console output so far, and the list of `spit_fizz` calls made so far
(index, value), in order. -/
structure FiboState where
  i : Nat
  result : Nat
  b : Nat
  overflow : Bool
  out : String
  calls : List (Nat × Nat)
  deriving DecidableEq, Repr

/-- One execution of the loop body of `fibo_seq_X`, followed by `++i`. -/
def fibo_body (W : Nat) (p_en : Bool) (s : FiboState) : FiboState :=
  let out := s.out ++ spit_fizz s.i s.result p_en
  let calls := s.calls ++ [(s.i, s.result)]
  let c := s.b
  let (b, carry) := UInt_Add W s.b s.result
  let overflow := if carry then true else s.overflow
  let result := c
  { i := (s.i + 1) % 2 ^ 32, result := result, b := b, overflow := overflow,
    out := out, calls := calls }

/-- The loop `for (...; i < n && !overflow; ++i)`: `none` when `fuel` rounds
were not enough to see the loop condition fail. -/
def fibo_loop (W n : Nat) (p_en : Bool) : Nat → FiboState → Option FiboState
  | 0, s => if s.i < n && !s.overflow then none else some s
  | fuel + 1, s =>
    if s.i < n && !s.overflow then fibo_loop W n p_en fuel (fibo_body W p_en s)
    else some s

/-- What `fibo_seq_X` leaves behind: the updated `n`, `result`, the returned
flag, the console output and the `spit_fizz` calls. -/
structure FiboRun where
  n : Nat
  result : Nat
  overflow : Bool
  out : String
  calls : List (Nat × Nat)
  deriving DecidableEq, Repr

/-- `bool fibo_seq_X(uint32_t& n, mUint_t& result, bool p_en)` on operands of
`W` bits (`ttmath::UInt` has at least one machine word, so the literal `1`
is representable).  The loop is given `n` rounds of fuel; it needs at most
`n - 1` of them (`fibo_seq_X_spec`). -/
def fibo_seq_X (W n : Nat) (p_en : Bool) : Option FiboRun :=
  let s0 : FiboState :=
    { i := 1, result := 1, b := 1, overflow := false, out := "", calls := [] }
  match fibo_loop W n p_en n s0 with
  | none => none
  | some s =>
    some { n := s.i, result := s.result, overflow := s.overflow,
           out := s.out ++ spit_fizz s.i s.result p_en,
           calls := s.calls ++ [(s.i, s.result)] }

/-- The variables of `fibo_seq_X` after `k` rounds of the loop body, started
from `result = 1`, `b = 1`, `i = 1`, `overflow = false`. -/
def fibo_state_after (W : Nat) (p_en : Bool) (k : Nat) : FiboState :=
  (fibo_body W p_en)^[k]
    { i := 1, result := 1, b := 1, overflow := false, out := "", calls := [] }

/-! ## The driver -/

/-- `int main(...)`: the exit status and the characters written to
`std::cout`, for the integer `input` read from `std::cin`.  Two numerals are
printed from floating-point values and are taken as given: `digits`
(`floor(MY_UINT_BITS*log10(2.0))`) and `cpu_seconds`
(`float(ticks)/CLOCKS_PER_SEC`).  `none` only if the generator loop ran out of
fuel. -/
def main (digits cpu_seconds : String) (input : Int) : Option (Int × String) :=
  let print_details := true
  let out := "\n" ++ "Welcome to FIZZBUZZ!" ++ "\n"
    ++ "Your current operand size is " ++ dec MY_UINT_BITS
    ++ "bits, your result will be limited to " ++ digits
    ++ " decimal digits" ++ "\n"
    ++ "If you need more digits, then modify MY_UINT_BITS in fizzbuzz.cpp"
    ++ "\n" ++ "\n"
  let out := out ++ "Enter the length of FIZZBUZZ sequence to run: "
  if input < 1 then some (0, out)
  else
    let n_finish := (input % 2 ^ 32).toNat
    match fibo_seq_X MY_UINT_BITS n_finish print_details with
    | none => none
    | some r =>
      let out := out ++ r.out
      let n_finish := r.n
      let fbn := r.result
      let retval := r.overflow
      let out :=
        if retval && decide (n_finish < (input % 2 ^ 32).toNat) then
          out ++ "\n" ++ "HIGHEST RESULT:  " ++ dec n_finish ++ "  " ++ dec fbn ++ "\n"
            ++ "ERROR: data overflow condition after n = " ++ dec n_finish ++ "\n"
            ++ "Please recompile fizzbuzz.cpp with more MY_UINT_BITS" ++ "\n"
        else
          out ++ "\n" ++ "SUCCESS:  " ++ dec n_finish ++ "  " ++ dec fbn ++ "\n"
      let out := out ++ "CPUtime seconds: " ++ cpu_seconds ++ "\n"
      some (0, out)

/-! ## Reference texts of the driver -/

/-- The banner and the prompt, as the specification words them. -/
def bannerText (digits : String) : String :=
  "\nWelcome to FIZZBUZZ!\nYour current operand size is " ++ dec MY_UINT_BITS
    ++ "bits, your result will be limited to " ++ digits
    ++ " decimal digits\nIf you need more digits, then modify MY_UINT_BITS in fizzbuzz.cpp\n\n"
    ++ "Enter the length of FIZZBUZZ sequence to run: "

/-- The "SUCCESS" summary reporting the index `m` and the value `v`. -/
def successSummary (m v : Nat) : String :=
  "\nSUCCESS:  " ++ dec m ++ "  " ++ dec v ++ "\n"

/-- The "ERROR: data overflow" summary reporting the index `m` and the value `v`. -/
def overflowSummary (m v : Nat) : String :=
  "\nHIGHEST RESULT:  " ++ dec m ++ "  " ++ dec v
    ++ "\nERROR: data overflow condition after n = " ++ dec m
    ++ "\nPlease recompile fizzbuzz.cpp with more MY_UINT_BITS\n"

/-- The timing line that ends every full run. -/
def timingLine (cpu_seconds : String) : String :=
  "CPUtime seconds: " ++ cpu_seconds ++ "\n"

/-! ## Reference traces -/

/-- The pairs `(k, F(k))` for `k = a, a+1, ..., a+len-1`, in that order. -/
def fibPairs (a len : Nat) : List (Nat × Nat) :=
  (List.range' a len).map (fun k => (k, Fib k))

/-- The pairs `(i, F(i))` for `i = 1, 2, ..., m`, in that order. -/
def fibTrace (m : Nat) : List (Nat × Nat) := fibPairs 1 m

/-- The console output of a sequence of `spit_fizz` calls. -/
def printed (p_en : Bool) : List (Nat × Nat) → String
  | [] => ""
  | c :: cs => spit_fizz c.1 c.2 p_en ++ printed p_en cs

/-! ## Certificates that Fibonacci numbers are composite

The table of known Fibonacci-prime indices is complete on the indices that a
run at the configured width can reach (`1..11801`).  For an index outside the
table this is shown by a certificate that `F(k)` is composite: `k` itself has
a proper divisor, or a proper factor of `F(k)` is given, or `F(k)` fails the
Fermat test to base 2.  The functions below check such certificates; they are
written with the primitive operations on `Nat` so that they evaluate
quickly. -/

/-- The value `k x`, written so that evaluation computes `x` first. -/
def force {α : Type} (x : Nat) (k : Nat → α) : α :=
  match x with
  | 0 => k 0
  | m + 1 => k (m + 1)

/-- Fast doubling: `(F(k), F(k+1))` from `(F(k/2), F(k/2+1))`, for
`k < 2^fuel`. -/
def fibFastAux : Nat → Nat → Nat × Nat
  | 0, _ => (0, 1)
  | f + 1, k =>
    match Nat.beq k 0 with
    | true => (0, 1)
    | false =>
      match fibFastAux f (Nat.div k 2) with
      | (a, b) =>
        force (Nat.mul a (Nat.sub (Nat.mul 2 b) a)) fun c =>
        force (Nat.add (Nat.mul a a) (Nat.mul b b)) fun d =>
        match Nat.beq (Nat.mod k 2) 0 with
        | true => (c, d)
        | false => (d, Nat.add c d)

/-- The Fibonacci number `F(k)`, for `k < 2^14`. -/
def fibFast (k : Nat) : Nat := (fibFastAux 14 k).1

/-- One round of square-and-multiply for powers of 2 modulo `n`, consuming
the two bits of the exponent `e` at positions `k+1`, `k`:
`x ↦ x^4 * 2^(e / 2^k % 4) mod n`. -/
def fermatStep (n e k x : Nat) : Nat :=
  Nat.mod (Nat.shiftLeft (Nat.pow x 4) (Nat.mod (Nat.shiftRight e k) 4)) n

/-- Four rounds: the 8 bits of `e` at positions `k .. k+7`. -/
def fermat4 (n e k x : Nat) : Nat :=
  fermatStep n e k (fermatStep n e (Nat.add k 2) (fermatStep n e (Nat.add k 4)
    (fermatStep n e (Nat.add k 6) x)))

/-- Sixteen rounds: the 32 bits of `e` at positions `k .. k+31`. -/
def fermat16 (n e k x : Nat) : Nat :=
  fermat4 n e k (fermat4 n e (Nat.add k 8) (fermat4 n e (Nat.add k 16)
    (fermat4 n e (Nat.add k 24) x)))

/-- Sixty-four rounds: the 128 bits of `e` at positions `k .. k+127`. -/
def fermat64 (n e k x : Nat) : Nat :=
  fermat16 n e k (fermat16 n e (Nat.add k 32) (fermat16 n e (Nat.add k 64)
    (fermat16 n e (Nat.add k 96) x)))

/-- The lowest `128 * f` bits of `e`, 128 at a time from the top. -/
def fermatRun (n e : Nat) : Nat → Nat → Nat
  | 0, x => x
  | f + 1, x => force (fermat64 n e (Nat.mul 128 f) x) (fermatRun n e f)

/-- Fermat test to base 2 on `N = F(p)`: `N > 2` and `2^(N-1) mod N ≠ 1`. -/
def fermatComposite (p : Nat) : Bool :=
  force (fibFast p) fun N =>
  force (Nat.sub N 1) fun e =>
  force (Nat.add (Nat.div p 128) 1) fun f =>
  Nat.blt 2 N && (Nat.beq (Nat.shiftRight e (Nat.mul 128 f)) 0 &&
    !(Nat.beq (Nat.mod (fermatRun N e f 1) N) 1))

/-- The number `q` is a proper factor of `F(p)`: `1 < q < F(p)` and `q ∣ F(p)`. -/
def factorComposite (p q : Nat) : Bool :=
  force (fibFast p) fun N =>
  Nat.blt 1 q && (Nat.blt q N && Nat.beq (Nat.mod N q) 0)

/-- Trial division of `k` by `d, d+1, ...` while `d * d ≤ k`: true when a
divisor `d' < k` is found. -/
def hasDivisorFrom : Nat → Nat → Nat → Bool
  | 0, _, _ => false
  | f + 1, d, k =>
    match Nat.beq (Nat.mod k d) 0 with
    | true => Nat.blt d k
    | false =>
      match Nat.blt k (Nat.mul d d) with
      | true => false
      | false => hasDivisorFrom f (Nat.add d 1) k

/-- A certificate `(p, q)`: `q = 0` asks for the Fermat test on `F(p)`,
`q = 1` says that `p` is 2 or an entry of the table, any other `q` is a
proper factor of `F(p)`. -/
def certOK (p q : Nat) : Bool :=
  match q with
  | 0 => fermatComposite p
  | 1 => Nat.beq p 2 || FiboPrimes.contains p
  | _ => factorComposite p q

/-- Checks the indices `k, k+1, ..., k+fuel-1` against the certificates
(sorted by index): an index with a certificate must pass it, an index without
one must have a proper divisor. -/
def checkRange : Nat → Nat → List (Nat × Nat) → Bool
  | 0, _, _ => true
  | fuel + 1, k, [] => hasDivisorFrom 110 2 k && checkRange fuel (Nat.add k 1) []
  | fuel + 1, k, (p, q) :: L =>
    match Nat.beq k p with
    | true => certOK p q && checkRange fuel (Nat.add k 1) L
    | false => hasDivisorFrom 110 2 k && checkRange fuel (Nat.add k 1) ((p, q) :: L)

/-- The certificates for the indices `2..11801`, in 118 blocks of 100
consecutive indices (block `i` covers `100 * i + 2 .. 100 * i + 101`).  Each
entry is `(p, q)` for a prime index `p`: `q = 1` for 2 and for the entries of
the table, `q = 0` when `F(p)` fails the Fermat test to base 2, any other `q`
a proper factor of `F(p)`. -/
def certChunks : List (List (Nat × Nat)) :=
  [
    [(2, 1), (3, 1), (4, 1), (5, 1), (7, 1), (11, 1), (13, 1), (17, 1), (19, 37), (23, 1),
     (29, 1), (31, 557), (37, 73), (41, 2789), (43, 1), (47, 1), (53, 953), (59, 353),
     (61, 4513), (67, 269), (71, 6673), (73, 9375829), (79, 157), (83, 1), (89, 1069),
     (97, 193), (101, 0)],
    [(103, 519121), (107, 1247833), (109, 0), (113, 677), (127, 27941), (131, 1), (137, 1),
     (139, 277), (149, 110557), (151, 5737), (157, 313), (163, 977), (167, 0), (173, 0),
     (179, 21481), (181, 8689), (191, 0), (193, 0), (197, 15761), (199, 397)],
    [(211, 22504837), (223, 4013), (227, 23609), (229, 457), (233, 139801), (239, 10037),
     (241, 11042621), (251, 0), (257, 5653), (263, 4733), (269, 5381), (271, 0), (277, 0),
     (281, 174221), (283, 10753), (293, 0)],
    [(307, 613), (311, 837833), (313, 1877), (317, 1307309), (331, 29129), (337, 673),
     (347, 324097), (349, 1358309), (353, 736357), (359, 1), (367, 733), (373, 2237),
     (379, 757), (383, 1639241), (389, 2333), (397, 0), (401, 13885829)],
    [(409, 4909), (419, 11623061), (421, 11789), (431, 1), (433, 1), (439, 877), (443, 8861),
     (449, 1), (457, 6397), (461, 26737), (463, 2777), (467, 0), (479, 2637373), (487, 1949),
     (491, 0), (499, 997)],
    [(503, 10061), (509, 1), (521, 9377), (523, 8369), (541, 54101), (547, 1093), (557, 0),
     (563, 10133), (569, 1), (571, 1), (577, 1153), (587, 0), (593, 3557), (599, 0), (601, 0)],
    [(607, 1213), (613, 0), (617, 234461), (619, 1237), (631, 593141), (641, 149993),
     (643, 5077129), (647, 0), (653, 0), (659, 0), (661, 25117), (673, 282661),
     (677, 212741833), (683, 258173), (691, 0), (701, 42061)],
    [(709, 63428557), (719, 0), (727, 1453), (733, 379693), (739, 0), (743, 0), (751, 551233),
     (757, 10597), (761, 36529), (769, 50753), (773, 4637), (787, 47221), (797, 0)],
    [(809, 48541), (811, 48661), (821, 39409), (823, 29629), (827, 183593), (829, 1657),
     (839, 15422497), (853, 13649), (857, 0), (859, 108233), (863, 327941), (877, 1753),
     (881, 264301), (883, 5297), (887, 74509)],
    [(907, 2069773), (911, 107578169), (919, 23893), (929, 11149), (937, 1873), (941, 2981089),
     (947, 0), (953, 0), (967, 1933), (971, 52433), (977, 42989), (983, 5897), (991, 0),
     (997, 1993)],
    [(1009, 2017), (1013, 4374133), (1019, 44006533), (1021, 14293), (1031, 35404541),
     (1033, 20308781), (1039, 8457461), (1049, 0), (1051, 0), (1061, 93514417), (1063, 0),
     (1069, 2137), (1087, 4349), (1091, 0), (1093, 17489), (1097, 243533)],
    [(1103, 72797), (1109, 0), (1117, 20166317), (1123, 6737), (1129, 0), (1151, 23021),
     (1153, 6917), (1163, 134909), (1171, 114757), (1181, 5453857), (1187, 0), (1193, 0),
     (1201, 0)],
    [(1213, 43669), (1217, 53549), (1223, 0), (1229, 0), (1231, 0), (1237, 2473),
     (1249, 182353), (1259, 0), (1277, 0), (1279, 2557), (1283, 410561), (1289, 0), (1291, 0),
     (1297, 2593), (1301, 6400921)],
    [(1303, 7817), (1307, 26141), (1319, 1010353), (1321, 18493), (1327, 5309), (1361, 0),
     (1367, 0), (1373, 0), (1381, 189705209), (1399, 2797)],
    [(1409, 5052673), (1423, 0), (1427, 7394713), (1429, 2857), (1433, 581797),
     (1439, 39330749), (1447, 91479341), (1451, 49333), (1453, 0), (1459, 2917), (1471, 20593),
     (1481, 11119349), (1483, 2016881), (1487, 0), (1489, 107209), (1493, 0), (1499, 17989)],
    [(1511, 0), (1523, 56070769), (1531, 0), (1543, 0), (1549, 133213), (1553, 195677),
     (1559, 134918977), (1567, 6269), (1571, 12569), (1579, 37235977), (1583, 9497), (1597, 0),
     (1601, 0)],
    [(1607, 151057), (1609, 3217), (1613, 9677), (1619, 0), (1621, 223697), (1627, 3253),
     (1637, 0), (1657, 3313), (1663, 3751729), (1667, 0), (1669, 169179853), (1693, 44017),
     (1697, 0), (1699, 10193)],
    [(1709, 0), (1721, 0), (1723, 837377), (1733, 0), (1741, 0), (1747, 0), (1753, 44035361),
     (1759, 3517), (1777, 7109), (1783, 222457777), (1787, 185849), (1789, 10733), (1801, 0)],
    [(1811, 13209433), (1823, 83857), (1831, 98873), (1847, 210557), (1861, 0), (1867, 3733),
     (1871, 0), (1873, 0), (1877, 0), (1879, 22549), (1889, 0), (1901, 0)],
    [(1907, 0), (1913, 38261), (1931, 903709), (1933, 307188493), (1949, 0), (1951, 35117),
     (1973, 2758253), (1979, 0), (1987, 0), (1993, 478321), (1997, 0), (1999, 0)],
    [(2003, 0), (2011, 3044653), (2017, 0), (2027, 121621), (2029, 4057), (2039, 0),
     (2053, 328481), (2063, 30614921), (2069, 0), (2081, 0), (2083, 533249), (2087, 0),
     (2089, 4177), (2099, 0)],
    [(2111, 0), (2113, 0), (2129, 0), (2131, 14358677), (2137, 4273), (2141, 0), (2143, 0),
     (2153, 0), (2161, 31481449), (2179, 4357)],
    [(2203, 0), (2207, 0), (2213, 0), (2221, 2882857), (2237, 423732541), (2239, 134341),
     (2243, 125823329), (2251, 0), (2267, 17487637), (2269, 0), (2273, 2877617), (2281, 0),
     (2287, 119687857), (2293, 13757), (2297, 0)],
    [(2309, 0), (2311, 32353), (2333, 81575677), (2339, 0), (2341, 0), (2347, 0),
     (2351, 1551661), (2357, 0), (2371, 0), (2377, 2457817), (2381, 80953), (2383, 0),
     (2389, 0), (2393, 0), (2399, 58108577)],
    [(2411, 81973), (2417, 476037817), (2423, 14537), (2437, 0), (2441, 0), (2447, 0),
     (2459, 1588513), (2467, 4933), (2473, 4451401), (2477, 653929)],
    [(2503, 15017), (2521, 0), (2531, 20249), (2539, 5077), (2543, 0), (2549, 0),
     (2551, 198977), (2557, 5113), (2579, 2119937), (2591, 0), (2593, 0)],
    [(2609, 0), (2617, 5233), (2621, 0), (2633, 15797), (2647, 37057), (2657, 16213013),
     (2659, 159541), (2663, 1171721), (2671, 357913), (2677, 10709), (2683, 16097),
     (2687, 2187217), (2689, 0), (2693, 48473), (2699, 16193)],
    [(2707, 5413), (2711, 0), (2713, 2186677), (2719, 5437), (2729, 32749), (2731, 731909),
     (2741, 21929), (2749, 0), (2753, 55061), (2767, 1643597), (2777, 0), (2789, 0),
     (2791, 1557377), (2797, 620933), (2801, 157024061)],
    [(2803, 0), (2819, 0), (2833, 50993), (2837, 919189), (2843, 0), (2851, 0), (2857, 114281),
     (2861, 1167289), (2879, 264522521), (2887, 11549), (2897, 55778837)],
    [(2903, 58061), (2909, 93089), (2917, 116681), (2927, 0), (2939, 0), (2953, 112213),
     (2957, 0), (2963, 0), (2969, 0), (2971, 1), (2999, 59981), (3001, 0)],
    [(3011, 0), (3019, 6037), (3023, 0), (3037, 6073), (3041, 0), (3049, 369118037),
     (3061, 299977), (3067, 6133), (3079, 0), (3083, 3132329), (3089, 129737)],
    [(3109, 6217), (3119, 18713), (3121, 243437), (3137, 1080263593), (3163, 0), (3167, 0),
     (3169, 6337), (3181, 0), (3187, 6373), (3191, 0)],
    [(3203, 0), (3209, 256721), (3217, 0), (3221, 1913273), (3229, 193741), (3251, 0),
     (3253, 312289), (3257, 0), (3259, 5905309), (3271, 0), (3299, 19793), (3301, 21680969)],
    [(3307, 0), (3313, 0), (3319, 6637), (3323, 0), (3329, 1192447801), (3331, 59957),
     (3343, 0), (3347, 749729), (3359, 443389), (3361, 0), (3371, 768589), (3373, 337301),
     (3389, 20333), (3391, 0)],
    [(3407, 0), (3413, 470993), (3433, 295237), (3449, 69552533), (3457, 4079261), (3461, 0),
     (3463, 23195173), (3467, 4104929), (3469, 0), (3491, 0), (3499, 6997)],
    [(3511, 8686213), (3517, 295429), (3527, 0), (3529, 7057), (3533, 275573),
     (3539, 188600389), (3541, 4440413), (3547, 0), (3557, 0), (3559, 185069), (3571, 0),
     (3581, 0), (3583, 57329), (3593, 21557)],
    [(3607, 7213), (3613, 130069), (3617, 72341), (3623, 0), (3631, 0), (3637, 225493),
     (3643, 0), (3659, 702529), (3671, 0), (3673, 22037), (3677, 0), (3691, 0), (3697, 7393),
     (3701, 214657)],
    [(3709, 7417), (3719, 0), (3727, 0), (3733, 22397), (3739, 7477), (3761, 0), (3767, 0),
     (3769, 7537), (3779, 83137), (3793, 523433), (3797, 432857)],
    [(3803, 0), (3821, 19097357), (3823, 99397), (3833, 229981), (3847, 444490073),
     (3851, 30809), (3853, 986369), (3863, 0), (3877, 7753), (3881, 0), (3889, 622241)],
    [(3907, 914237), (3911, 211193), (3917, 321193), (3919, 0), (3923, 0), (3929, 0),
     (3931, 2036257), (3943, 0), (3947, 0), (3967, 7933), (3989, 0), (4001, 0)],
    [(4003, 62550877), (4007, 0), (4013, 0), (4019, 24113), (4021, 1447561), (4027, 8053),
     (4049, 0), (4051, 4772077), (4057, 16229), (4073, 0), (4079, 0), (4091, 5727401),
     (4093, 106417), (4099, 0)],
    [(4111, 0), (4127, 0), (4129, 461217557), (4133, 0), (4139, 0), (4153, 0), (4157, 0),
     (4159, 8317), (4177, 8353), (4201, 0)],
    [(4211, 0), (4217, 607249), (4219, 0), (4229, 25373), (4231, 0), (4241, 16938553),
     (4243, 0), (4253, 107515841), (4259, 1967657), (4261, 715849), (4271, 0), (4273, 0),
     (4283, 38118701), (4289, 0), (4297, 17189)],
    [(4327, 0), (4337, 54793657), (4339, 8677), (4349, 0), (4357, 8713), (4363, 26177),
     (4373, 349841), (4391, 1141661), (4397, 105529)],
    [(4409, 0), (4421, 212209), (4423, 285283501), (4441, 0), (4447, 8893), (4451, 0),
     (4457, 0), (4463, 0), (4481, 0), (4483, 0), (4493, 0)],
    [(4507, 9013), (4513, 27077), (4517, 0), (4519, 0), (4523, 434209), (4547, 0),
     (4549, 327529), (4561, 675029), (4567, 9133), (4583, 0), (4591, 0), (4597, 183881)],
    [(4603, 27617), (4621, 0), (4637, 556441), (4639, 9277), (4643, 92861), (4649, 27893),
     (4651, 7664849), (4657, 251477), (4663, 0), (4673, 0), (4679, 1225897), (4691, 8603293)],
    [(4703, 84653), (4721, 226609), (4723, 1), (4729, 0), (4733, 0), (4751, 95021),
     (4759, 422056673), (4783, 286981), (4787, 1120157), (4789, 1055984077), (4793, 19833433),
     (4799, 201557), (4801, 0)],
    [(4813, 375413), (4817, 0), (4831, 260873), (4861, 68053), (4871, 0), (4877, 0),
     (4889, 697767857)],
    [(4903, 0), (4909, 9817), (4919, 0), (4931, 41390813), (4933, 128257), (4937, 0),
     (4943, 0), (4951, 297061), (4957, 0), (4967, 0), (4969, 0), (4973, 278489), (4987, 9973),
     (4993, 6670649), (4999, 1664327069)],
    [(5003, 3992393), (5009, 0), (5011, 0), (5021, 0), (5023, 9523609), (5039, 0),
     (5051, 3677129), (5059, 132849341), (5077, 0), (5081, 243889), (5087, 0), (5099, 0),
     (5101, 0)],
    [(5107, 306421), (5113, 30677), (5119, 18633161), (5147, 1376215153), (5153, 83272481),
     (5167, 10333), (5171, 93077), (5179, 10357), (5189, 114157), (5197, 4957937)],
    [(5209, 135433), (5227, 10453), (5231, 31040753), (5233, 627961), (5237, 1299111169),
     (5261, 0), (5273, 0), (5279, 0), (5281, 0), (5297, 233069)],
    [(5303, 31817), (5309, 63709), (5323, 0), (5333, 0), (5347, 74857), (5351, 417377),
     (5381, 43049), (5387, 1), (5393, 0), (5399, 0)],
    [(5407, 0), (5413, 10490393), (5417, 0), (5419, 10837), (5431, 0), (5437, 141981817),
     (5441, 0), (5443, 144555193), (5449, 0), (5471, 0), (5477, 0), (5479, 10957), (5483, 0),
     (5501, 2574469)],
    [(5503, 2190193), (5507, 0), (5519, 838889), (5521, 0), (5527, 1005913), (5531, 0),
     (5557, 11113), (5563, 33377), (5569, 3686677), (5573, 10287757), (5581, 0), (5591, 0)],
    [(5623, 13022869), (5639, 0), (5641, 0), (5647, 0), (5651, 113021), (5653, 0),
     (5657, 3518653), (5659, 11317), (5669, 0), (5683, 0), (5689, 0), (5693, 34157), (5701, 0)],
    [(5711, 0), (5717, 0), (5737, 240953), (5741, 0), (5743, 1481693), (5749, 11497),
     (5779, 4854361), (5783, 7321277), (5791, 0), (5801, 86713349)],
    [(5807, 0), (5813, 34877), (5821, 0), (5827, 0), (5839, 11677), (5843, 268777),
     (5849, 128677), (5851, 0), (5857, 237934769), (5861, 0), (5867, 316817), (5869, 0),
     (5879, 0), (5881, 0), (5897, 129733)],
    [(5903, 118061), (5923, 0), (5927, 0), (5939, 0), (5953, 1583497), (5981, 0), (5987, 0)],
    [(6007, 1886197), (6011, 324593), (6029, 8874689), (6037, 12073), (6043, 4580593),
     (6047, 94962089), (6053, 1015729717), (6067, 5484569), (6073, 218629), (6079, 12157),
     (6089, 0), (6091, 0), (6101, 0)],
    [(6113, 36677), (6121, 0), (6131, 13978681), (6133, 159457), (6143, 36857),
     (6151, 1353221), (6163, 105498233), (6173, 0), (6197, 0), (6199, 354781169)],
    [(6203, 0), (6211, 0), (6217, 12433), (6221, 111977), (6229, 12457), (6247, 0),
     (6257, 981560617), (6263, 0), (6269, 2394757), (6271, 87793), (6277, 12553),
     (6287, 3923089), (6299, 0), (6301, 0)],
    [(6311, 650500013), (6317, 0), (6323, 0), (6329, 0), (6337, 25349), (6343, 0),
     (6353, 381181), (6359, 902977), (6361, 0), (6367, 0), (6373, 187149517), (6379, 12757),
     (6389, 38333), (6397, 652493)],
    [(6421, 3724181), (6427, 12853), (6449, 38693), (6451, 0), (6469, 1289866849), (6473, 0),
     (6481, 0), (6491, 0)],
    [(6521, 508637), (6529, 0), (6547, 13093), (6551, 25863349), (6553, 0), (6563, 1495576441),
     (6569, 0), (6571, 1301057), (6577, 26309), (6581, 118457), (6599, 12010181)],
    [(6607, 0), (6619, 101045653), (6637, 0), (6653, 0), (6659, 39953), (6661, 0),
     (6673, 40037), (6679, 26929729), (6689, 0), (6691, 0), (6701, 53609)],
    [(6703, 0), (6709, 13417), (6719, 4972061), (6733, 0), (6737, 0), (6761, 0), (6763, 40577),
     (6779, 0), (6781, 0), (6791, 2428380109), (6793, 0)],
    [(6803, 2033933729), (6823, 0), (6827, 35118089), (6829, 0), (6833, 0), (6841, 368032117),
     (6857, 0), (6863, 1177004501), (6869, 0), (6871, 742069), (6883, 0), (6899, 317353)],
    [(6907, 0), (6911, 53131769), (6917, 939148757), (6947, 0), (6949, 694901),
     (6959, 1217351789), (6961, 6640793), (6967, 13933), (6971, 0), (6977, 0), (6983, 125693),
     (6991, 377513), (6997, 0), (7001, 12587797)],
    [(7013, 126233), (7019, 78472421), (7027, 1675264909), (7039, 0), (7043, 42257),
     (7057, 28229), (7069, 1979321), (7079, 0)],
    [(7103, 142061), (7109, 654029), (7121, 0), (7127, 171049), (7129, 42773), (7151, 0),
     (7159, 0), (7177, 0), (7187, 158113), (7193, 93782333)],
    [(7207, 533317), (7211, 292824289), (7213, 0), (7219, 14437), (7229, 0), (7237, 28949),
     (7243, 43457), (7247, 753689), (7253, 4917533), (7283, 0), (7297, 14593)],
    [(7307, 7760033), (7309, 0), (7321, 2986969), (7331, 395873), (7333, 0), (7349, 1660873),
     (7351, 44841101), (7369, 14737), (7393, 1774321)],
    [(7411, 0), (7417, 29669), (7433, 0), (7451, 143193317), (7457, 132391577), (7459, 447541),
     (7477, 762653), (7481, 1450401317), (7487, 6453793), (7489, 0), (7499, 614917)],
    [(7507, 15013), (7517, 0), (7523, 586793), (7529, 0), (7537, 15073), (7541, 2865581),
     (7547, 0), (7549, 45293), (7559, 90709), (7561, 0), (7573, 0), (7577, 1946834381),
     (7583, 0), (7589, 0), (7591, 192492577)],
    [(7603, 197677), (7607, 877650017), (7621, 106693), (7639, 15277), (7643, 195798373),
     (7649, 0), (7669, 2392729), (7673, 7059161), (7681, 291877), (7687, 15373), (7691, 0),
     (7699, 0)],
    [(7703, 98444341), (7717, 30869), (7723, 46337), (7727, 0), (7741, 572833),
     (7753, 93315109), (7757, 1117009), (7759, 0), (7789, 35253013), (7793, 46757)],
    [(7817, 3283141), (7823, 19713961), (7829, 2708833), (7841, 2038661), (7853, 116742697),
     (7867, 15733), (7873, 0), (7877, 0), (7879, 0), (7883, 0), (7901, 158241229)],
    [(7907, 0), (7919, 47513), (7927, 1160829881), (7933, 442486873), (7937, 0), (7949, 0),
     (7951, 0), (7963, 143333), (7993, 2497460809)],
    [(8009, 0), (8011, 2996113), (8017, 16033), (8039, 1061149), (8053, 0), (8059, 48353),
     (8069, 580969), (8081, 872749), (8087, 161741), (8089, 18006113), (8093, 28616849),
     (8101, 953763133)],
    [(8111, 162221), (8117, 0), (8123, 146213), (8147, 179233), (8161, 0), (8167, 16333),
     (8171, 0), (8179, 0), (8191, 0)],
    [(8209, 16417), (8219, 0), (8221, 0), (8231, 0), (8233, 148193), (8237, 3459541),
     (8243, 0), (8263, 0), (8269, 0), (8273, 14858309), (8287, 16573), (8291, 1641617),
     (8293, 0), (8297, 0)],
    [(8311, 1728689), (8317, 16633), (8329, 16657), (8353, 176465477), (8363, 53489749),
     (8369, 887113), (8377, 27158233), (8387, 0), (8389, 0)],
    [(8419, 0), (8423, 0), (8429, 0), (8431, 118033), (8443, 0), (8447, 151488497),
     (8461, 9594773), (8467, 0), (8501, 170021)],
    [(8513, 23461829), (8521, 1141813), (8527, 17053), (8537, 18439921), (8539, 17077),
     (8543, 20298169), (8563, 0), (8573, 51437), (8581, 597992729), (8597, 378269), (8599, 0)],
    [(8609, 43045001), (8623, 0), (8627, 0), (8629, 17257), (8641, 0), (8647, 17293),
     (8663, 51977), (8669, 190717), (8677, 364433), (8681, 156257), (8689, 17377),
     (8693, 55861217), (8699, 0)],
    [(8707, 0), (8713, 1394062573), (8719, 2981897), (8731, 274223249), (8737, 0),
     (8741, 3671221), (8747, 0), (8753, 52517), (8761, 26615917), (8779, 52673), (8783, 52697)],
    [(8803, 0), (8807, 0), (8819, 194017), (8821, 0), (8831, 0), (8837, 1060441),
     (8839, 14672741), (8849, 0), (8861, 0), (8863, 0), (8867, 6685717), (8887, 4212437),
     (8893, 0)],
    [(8923, 178620613), (8929, 892901), (8933, 53597), (8941, 21047113), (8951, 19226749),
     (8963, 0), (8969, 0), (8971, 87987569), (8999, 0), (9001, 2952329)],
    [(9007, 18013), (9011, 0), (9013, 324469), (9029, 70299793), (9041, 5316109),
     (9043, 120615533), (9049, 18097), (9059, 0), (9067, 18133), (9091, 0)],
    [(9103, 0), (9109, 18217), (9127, 18253), (9133, 0), (9137, 383753), (9151, 0),
     (9157, 18313), (9161, 0), (9173, 0), (9181, 0), (9187, 36749), (9199, 18397)],
    [(9203, 1288421), (9209, 0), (9221, 1549129), (9227, 311134441), (9239, 0),
     (9241, 5156477), (9257, 555421), (9277, 18553), (9281, 185621), (9283, 7389269),
     (9293, 135826489)],
    [(9311, 1), (9319, 18637), (9323, 1077794737), (9337, 0), (9341, 0), (9343, 0), (9349, 0),
     (9371, 168677), (9377, 0), (9391, 0), (9397, 18793)],
    [(9403, 56417), (9413, 56477), (9419, 34530053), (9421, 0), (9431, 10374101), (9433, 0),
     (9437, 0), (9439, 244772149), (9461, 0), (9463, 0), (9467, 0), (9473, 97723469),
     (9479, 56873), (9491, 20671397), (9497, 27769229)],
    [(9511, 0), (9521, 0), (9533, 8179313), (9539, 0), (9547, 25910557), (9551, 0), (9587, 0),
     (9601, 100695289)],
    [(9613, 0), (9619, 19237), (9623, 57737), (9629, 37996033), (9631, 520073), (9643, 0),
     (9649, 618327217), (9661, 0), (9677, 1), (9679, 1548641), (9689, 42554089), (9697, 0)],
    [(9719, 850082053), (9721, 272189), (9733, 5041693), (9739, 19477), (9743, 0), (9749, 0),
     (9767, 0), (9769, 2598553), (9781, 120443233), (9787, 621905129), (9791, 0)],
    [(9803, 112107109), (9811, 0), (9817, 0), (9829, 506390081), (9833, 0), (9839, 0),
     (9851, 567594917), (9857, 0), (9859, 19717), (9871, 3731237), (9883, 177893), (9887, 0),
     (9901, 396041)],
    [(9907, 19813), (9923, 9883309), (9929, 120796213), (9931, 0), (9941, 0), (9949, 0),
     (9967, 39869), (9973, 0)],
    [(10007, 0), (10009, 0), (10037, 602221), (10039, 1023977), (10061, 176610793), (10067, 0),
     (10069, 0), (10079, 201581), (10091, 32271017), (10093, 1271717), (10099, 0)],
    [(10103, 0), (10111, 0), (10133, 0), (10139, 0), (10141, 1007386657), (10151, 0),
     (10159, 264133), (10163, 0), (10169, 755475349), (10177, 20353), (10181, 0), (10193, 0)],
    [(10211, 463048429), (10223, 16745273), (10243, 175216757), (10247, 0), (10253, 0),
     (10259, 81456461), (10267, 20533), (10271, 0), (10273, 61637), (10289, 0), (10301, 0)],
    [(10303, 0), (10313, 9034189), (10321, 0), (10331, 0), (10333, 810375857),
     (10337, 2687621), (10343, 9784477), (10357, 1884973), (10369, 62213), (10391, 353293),
     (10399, 1418860357)],
    [(10427, 39622601), (10429, 20857), (10433, 62597), (10453, 0), (10457, 250969),
     (10459, 62753), (10463, 1883341), (10477, 0), (10487, 6292201), (10499, 3632653),
     (10501, 0)],
    [(10513, 6497033), (10529, 5917297), (10531, 214769213), (10559, 2177962693), (10567, 0),
     (10589, 231115513), (10597, 21193), (10601, 0)],
    [(10607, 212141), (10613, 8469173), (10627, 5738581), (10631, 18476677), (10639, 21277),
     (10651, 191717), (10657, 21313), (10663, 63977), (10667, 0), (10687, 0), (10691, 54887593)],
    [(10709, 128509), (10711, 299909), (10723, 193013), (10729, 16651409), (10733, 0),
     (10739, 13123057), (10753, 0), (10771, 0), (10781, 1272157), (10789, 21577),
     (10799, 129589)],
    [(10831, 0), (10837, 21673), (10847, 0), (10853, 0), (10859, 412229357), (10861, 0),
     (10867, 260809), (10883, 391789), (10889, 2961809), (10891, 0)],
    [(10903, 0), (10909, 21817), (10937, 262489), (10939, 65633), (10949, 897817),
     (10957, 86275417), (10973, 3489413), (10979, 0), (10987, 0), (10993, 395749)],
    [(11003, 0), (11027, 71697553), (11047, 22093), (11057, 906673), (11059, 0),
     (11069, 66413), (11071, 0), (11083, 0), (11087, 665221), (11093, 0)],
    [(11113, 140223833), (11117, 24257293), (11119, 470111321), (11131, 0), (11149, 16054561),
     (11159, 0), (11161, 0), (11171, 10590109), (11173, 424573), (11177, 0), (11197, 44789)],
    [(11213, 0), (11239, 0), (11243, 17066873), (11251, 0), (11257, 0), (11261, 0),
     (11273, 27461029), (11279, 34987457), (11287, 22573), (11299, 1943429)],
    [(11311, 0), (11317, 0), (11321, 1413540061), (11329, 0), (11351, 2683580717), (11353, 0),
     (11369, 68213), (11383, 0), (11393, 0), (11399, 421557817)],
    [(11411, 0), (11423, 0), (11437, 160117), (11443, 6614053), (11447, 251833), (11467, 0),
     (11471, 0), (11483, 16489589), (11489, 0), (11491, 0), (11497, 22993)],
    [(11503, 0), (11519, 7141781), (11527, 23053), (11549, 831529), (11551, 462041),
     (11579, 833689), (11587, 23173), (11593, 0), (11597, 2597729)],
    [(11617, 19446857), (11621, 395113), (11633, 0), (11657, 0), (11677, 10999733),
     (11681, 210257), (11689, 140269), (11699, 0), (11701, 0)],
    [(11717, 0), (11719, 70313), (11731, 0), (11743, 0), (11777, 0), (11779, 23557),
     (11783, 235661), (11789, 0), (11801, 0)]
  ]

/-! ## Facts about the reference sequence -/

theorem Fib_eq_fib (n : Nat) : Fib n = Nat.fib n := by
  induction n using Nat.strong_induction_on with
  | _ n ih =>
    match n with
    | 0 => rfl
    | 1 => rfl
    | k + 2 =>
      rw [Fib, ih (k + 1) (by omega), ih k (by omega), Nat.fib_add_two, Nat.add_comm]

theorem Fib_add_two (k : Nat) : Fib (k + 2) = Fib (k + 1) + Fib k := by
  rw [Fib]

theorem Fib_mono {a b : Nat} (h : a ≤ b) : Fib a ≤ Fib b := by
  rw [Fib_eq_fib, Fib_eq_fib]
  exact Nat.fib_mono h

/-! ## Correctness of the table lookup -/

theorem lower_bound_loop_fuel (xs : List Nat) (val : Nat) :
    ∀ fuel fuel2 first len, len ≤ fuel → len ≤ fuel2 →
      lower_bound_loop xs val fuel first len = lower_bound_loop xs val fuel2 first len := by
  intro fuel
  induction fuel with
  | zero =>
    intro fuel2 first len h1 _
    have hl : len = 0 := by omega
    subst hl
    cases fuel2 <;> simp [lower_bound_loop]
  | succ f ih =>
    intro fuel2 first len h1 h2
    cases fuel2 with
    | zero =>
      have hl : len = 0 := by omega
      subst hl
      simp [lower_bound_loop]
    | succ g =>
      simp only [lower_bound_loop]
      by_cases hlen : 0 < len
      · simp only [hlen, if_true]
        have hh : len / 2 < len := Nat.div_lt_self hlen (by decide)
        split
        · exact ih g _ _ (by omega) (by omega)
        · exact ih g _ _ (by omega) (by omega)
      · simp [hlen]

theorem lower_bound_loop_spec (xs : List Nat) (val : Nat)
    (hmono : ∀ i j, i ≤ j → j < xs.length → xs.getD i 0 ≤ xs.getD j 0) :
    ∀ fuel first len, len ≤ fuel → first + len ≤ xs.length →
      (∀ k, k < first → xs.getD k 0 < val) →
      (∀ k, first + len ≤ k → k < xs.length → val ≤ xs.getD k 0) →
      lower_bound_loop xs val fuel first len ≤ xs.length ∧
      (∀ k, k < lower_bound_loop xs val fuel first len → xs.getD k 0 < val) ∧
      (∀ k, lower_bound_loop xs val fuel first len ≤ k → k < xs.length →
        val ≤ xs.getD k 0) := by
  intro fuel
  induction fuel with
  | zero =>
    intro first len h1 h2 hlo hhi
    have hl : len = 0 := by omega
    subst hl
    simp only [lower_bound_loop]
    exact ⟨by omega, hlo, fun k hk hk2 => hhi k (by omega) hk2⟩
  | succ f ih =>
    intro first len h1 h2 hlo hhi
    simp only [lower_bound_loop]
    by_cases hlen : 0 < len
    · simp only [hlen, if_true]
      have hh : len / 2 < len := Nat.div_lt_self hlen (by decide)
      split
      · rename_i hlt
        refine ih _ _ (by omega) (by omega) ?_ ?_
        · intro k hk
          have := hmono k (first + len / 2) (by omega) (by omega)
          omega
        · intro k hk hk2
          exact hhi k (by omega) hk2
      · rename_i hge
        refine ih _ _ (by omega) (by omega) hlo ?_
        intro k hk hk2
        have := hmono (first + len / 2) k hk hk2
        omega
    · have hl : len = 0 := by omega
      subst hl
      simp only [Nat.lt_irrefl, if_false]
      exact ⟨by omega, hlo, fun k hk hk2 => hhi k (by omega) hk2⟩

theorem binary_search_iff (xs : List Nat) (val : Nat)
    (hmono : ∀ i j, i ≤ j → j < xs.length → xs.getD i 0 ≤ xs.getD j 0) :
    binary_search xs val = true ↔ val ∈ xs := by
  obtain ⟨hle, hlo, hhi⟩ := lower_bound_loop_spec xs val hmono xs.length 0 xs.length
    (Nat.le_refl _) (by omega) (fun k hk => absurd hk (Nat.not_lt_zero k))
    (fun k hk hk2 => absurd hk2 (by omega))
  simp only [binary_search, lower_bound, Bool.and_eq_true, decide_eq_true_eq,
    Bool.not_eq_true', decide_eq_false_iff_not]
  constructor
  · rintro ⟨hne, hnlt⟩
    have hr : lower_bound_loop xs val xs.length 0 xs.length < xs.length := by omega
    have h1 := hhi _ (Nat.le_refl _) hr
    have heq : xs.getD (lower_bound_loop xs val xs.length 0 xs.length) 0 = val := by omega
    rw [List.getD_eq_getElem _ _ hr] at heq
    exact List.mem_iff_getElem.mpr ⟨_, hr, heq⟩
  · intro hmem
    obtain ⟨k, hk, hkv⟩ := List.mem_iff_getElem.mp hmem
    have hkd : xs.getD k 0 = val := by rw [List.getD_eq_getElem _ _ hk]; exact hkv
    have hrk : lower_bound_loop xs val xs.length 0 xs.length ≤ k := by
      by_contra hc
      have := hlo k (by omega)
      omega
    refine ⟨by omega, ?_⟩
    have := hmono _ k hrk hk
    omega

theorem FiboPrimes_strictly_increasing : FiboPrimes.Pairwise (· < ·) := by
  decide

theorem FiboPrimes_mono :
    ∀ i j, i ≤ j → j < FPvec.length → FPvec.getD i 0 ≤ FPvec.getD j 0 := by
  intro i j hij hj
  rcases Nat.eq_or_lt_of_le hij with h | h
  · subst h; exact Nat.le_refl _
  · have hp := List.pairwise_iff_getElem.mp FiboPrimes_strictly_increasing i j
      (by unfold FPvec at hj; omega) hj h
    rw [List.getD_eq_getElem _ _ hj, List.getD_eq_getElem _ _ (by omega)]
    exact Nat.le_of_lt hp

theorem is_FiboPrime_iff (n : Nat) : is_FiboPrime n = true ↔ n ∈ FiboPrimes := by
  unfold is_FiboPrime
  exact binary_search_iff FPvec n FiboPrimes_mono

/-! ## The generator loop -/

theorem printed_append (p : Bool) (xs ys : List (Nat × Nat)) :
    printed p (xs ++ ys) = printed p xs ++ printed p ys := by
  induction xs with
  | nil => simp [printed]
  | cons c cs ih => simp [printed, ih, String.append_assoc]

theorem fibPairs_succ (a len : Nat) :
    fibPairs a (len + 1) = (a, Fib a) :: fibPairs (a + 1) len := by
  simp [fibPairs, List.range'_succ]

theorem fibPairs_concat (a len : Nat) :
    fibPairs a (len + 1) = fibPairs a len ++ [(a + len, Fib (a + len))] := by
  simp [fibPairs, List.range'_1_concat]

theorem fibo_loop_stop (W n : Nat) (p : Bool) (fuel : Nat) (s : FiboState)
    (h : ¬ (s.i < n ∧ s.overflow = false)) : fibo_loop W n p fuel s = some s := by
  have hc : (decide (s.i < n) && !s.overflow) = false := by
    cases ho : s.overflow <;> simp_all
  cases fuel <;> simp [fibo_loop, hc]

/-- The loop of `fibo_seq_X`, entered at index `i` with `result = F(i)` and
`b = F(i+1)`: it ends (within `n - i` rounds) at some index `m`, having called
`spit_fizz` on `(k, F(k))` for `i ≤ k < m`, with `result = F(m)`. -/
theorem fibo_loop_spec (W n : Nat) (p : Bool) (hn : n < 2 ^ 32) :
    ∀ fuel i o cs, n - i ≤ fuel →
      ∃ m ovf bb, fibo_loop W n p fuel
          { i := i, result := Fib i, b := Fib (i + 1), overflow := false,
            out := o, calls := cs }
        = some { i := m, result := Fib m, b := bb, overflow := ovf,
                 out := o ++ printed p (fibPairs i (m - i)),
                 calls := cs ++ fibPairs i (m - i) } ∧
        i ≤ m ∧ (i ≤ n → m ≤ n) ∧ (m < n → ovf = true) ∧
        (ovf = true ↔ i < m ∧ 2 ^ W ≤ Fib (m + 1)) ∧
        (∀ j, i + 2 ≤ j → j ≤ m → Fib j < 2 ^ W) := by
  intro fuel
  induction fuel with
  | zero =>
    intro i o cs hf
    refine ⟨i, false, Fib (i + 1), ?_, Nat.le_refl _, fun h => h, ?_, ?_, ?_⟩
    · rw [fibo_loop_stop _ _ _ _ _ (by simp; omega)]
      simp [fibPairs, printed]
    · intro h; omega
    · simp
    · intro j h1 h2; omega
  | succ f ih =>
    intro i o cs hf
    by_cases hin : i < n
    · have hstep : fibo_loop W n p (f + 1)
          { i := i, result := Fib i, b := Fib (i + 1), overflow := false,
            out := o, calls := cs }
          = fibo_loop W n p f (fibo_body W p
              { i := i, result := Fib i, b := Fib (i + 1), overflow := false,
                out := o, calls := cs }) := by
        simp [fibo_loop, hin]
      have hwrap : (i + 1) % 4294967296 = i + 1 := Nat.mod_eq_of_lt (by omega)
      by_cases hfit : Fib (i + 1) + Fib i < 2 ^ W
      · have hbody : fibo_body W p
            { i := i, result := Fib i, b := Fib (i + 1), overflow := false,
              out := o, calls := cs }
            = { i := i + 1, result := Fib (i + 1), b := Fib (i + 1 + 1),
                overflow := false, out := o ++ spit_fizz i (Fib i) p,
                calls := cs ++ [(i, Fib i)] } := by
          simp [fibo_body, UInt_Add, hfit, hwrap, Fib_add_two]
        obtain ⟨m, ovf, bb, hrun, hle, hmn, hov, hiff, hfits⟩ :=
          ih (i + 1) (o ++ spit_fizz i (Fib i) p) (cs ++ [(i, Fib i)]) (by omega)
        have hlen : m - i = (m - (i + 1)) + 1 := by omega
        refine ⟨m, ovf, bb, ?_, by omega, fun _ => hmn (by omega), hov, ?_, ?_⟩
        · rw [hstep, hbody, hrun, hlen, fibPairs_succ]
          simp [printed, String.append_assoc]
        · rw [hiff]
          constructor
          · rintro ⟨h1, h2⟩; exact ⟨by omega, h2⟩
          · rintro ⟨h1, h2⟩
            refine ⟨?_, h2⟩
            by_contra hc
            have hm : m = i + 1 := by omega
            subst hm
            rw [Fib_add_two] at h2
            omega
        · intro j h1 h2
          rcases Nat.eq_or_lt_of_le h1 with h | h
          · subst h; rw [Fib_add_two]; exact hfit
          · exact hfits j (by omega) h2
      · have hbody : fibo_body W p
            { i := i, result := Fib i, b := Fib (i + 1), overflow := false,
              out := o, calls := cs }
            = { i := i + 1, result := Fib (i + 1), b := Fib (i + 1),
                overflow := true, out := o ++ spit_fizz i (Fib i) p,
                calls := cs ++ [(i, Fib i)] } := by
          simp [fibo_body, UInt_Add, hfit, hwrap]
        refine ⟨i + 1, true, Fib (i + 1), ?_, by omega, fun _ => by omega,
          fun _ => rfl, ?_, ?_⟩
        · rw [hstep, hbody, fibo_loop_stop _ _ _ _ _ (by simp)]
          have hlen : i + 1 - i = 0 + 1 := by omega
          rw [hlen, fibPairs_succ]
          simp [printed, fibPairs]
        · simp only [true_iff]
          refine ⟨by omega, ?_⟩
          rw [Fib_add_two]; omega
        · intro j h1 h2; omega
    · refine ⟨i, false, Fib (i + 1), ?_, Nat.le_refl _, fun h => h, ?_, ?_, ?_⟩
      · rw [fibo_loop_stop _ _ _ _ _ (by simp; omega)]
        simp [fibPairs, printed]
      · intro h; omega
      · simp
      · intro j h1 h2; omega

/-- What every call of `fibo_seq_X` does: it returns, at some final index `m`,
having called `spit_fizz` on `(k, F(k))` for `k = 1..m`, with `result = F(m)`;
the flag is set exactly when the look-ahead sum `F(m+1)` did not fit. -/
theorem fibo_seq_X_spec (W n : Nat) (p : Bool) (hn : n < 2 ^ 32) :
    ∃ m ovf, fibo_seq_X W n p
        = some { n := m, result := Fib m, overflow := ovf,
                 out := printed p (fibTrace m), calls := fibTrace m } ∧
      1 ≤ m ∧ (1 ≤ n → m ≤ n) ∧ (m < n → ovf = true) ∧
      (ovf = true ↔ 2 ≤ m ∧ 2 ^ W ≤ Fib (m + 1)) ∧
      (∀ j, 3 ≤ j → j ≤ m → Fib j < 2 ^ W) := by
  obtain ⟨m, ovf, bb, hrun, hle, hmn, hov, hiff, hfits⟩ :=
    fibo_loop_spec W n p hn n 1 "" [] (by omega)
  refine ⟨m, ovf, ?_, hle, hmn, hov, ?_, hfits⟩
  · have h1 : Fib 1 = 1 := rfl
    have h2 : Fib (1 + 1) = 1 := rfl
    rw [h1, h2] at hrun
    unfold fibo_seq_X
    simp only [hrun]
    obtain ⟨k, rfl⟩ : ∃ k, m = k + 1 := ⟨m - 1, by omega⟩
    rw [fibTrace, fibPairs_concat]
    simp [printed_append, printed, Nat.add_comm]
  · rw [hiff]
    constructor
    · rintro ⟨h1, h2⟩; exact ⟨by omega, h2⟩
    · rintro ⟨h1, h2⟩; exact ⟨by omega, h2⟩

/-- When `F(n)` fits in `W` bits the run reaches index `n`; the flag tells
whether the look-ahead sum `F(n+1)` fits as well. -/
theorem fibo_seq_X_fits (W n : Nat) (p : Bool) (h1 : 1 ≤ n) (hn : n < 2 ^ 32)
    (hfit : Fib n < 2 ^ W) :
    ∃ ovf, fibo_seq_X W n p
        = some { n := n, result := Fib n, overflow := ovf,
                 out := printed p (fibTrace n), calls := fibTrace n } ∧
      (ovf = true ↔ 2 ^ W ≤ Fib (n + 1)) := by
  obtain ⟨m, ovf, hrun, hm1, hmn, hov, hiff, hfits⟩ := fibo_seq_X_spec W n p hn
  have hmle := hmn h1
  have hmeq : m = n := by
    by_contra hne
    have hlt : m < n := by omega
    have h2 := (hiff.mp (hov hlt)).2
    have := Fib_mono (show m + 1 ≤ n by omega)
    omega
  subst hmeq
  refine ⟨ovf, hrun, ?_⟩
  rw [hiff]
  constructor
  · exact fun h => h.2
  · intro h
    refine ⟨?_, h⟩
    by_contra hc
    have h1' : m = 1 := by omega
    subst h1'
    have e1 : Fib 1 = 1 := rfl
    have e2 : Fib (1 + 1) = 1 := rfl
    omega

/-- When `F(m) < 2^W ≤ F(m+1)` and at least `m` values are requested, the run
ends at index `m` with the flag set. -/
theorem fibo_seq_X_overflow (W m n : Nat) (p : Bool) (hm : 1 ≤ m) (hmn : m ≤ n)
    (hn : n < 2 ^ 32) (hfit : Fib m < 2 ^ W) (hnext : 2 ^ W ≤ Fib (m + 1)) :
    fibo_seq_X W n p
      = some { n := m, result := Fib m, overflow := true,
               out := printed p (fibTrace m), calls := fibTrace m } := by
  obtain ⟨k, ovf, hrun, hk1, hkn, hov, hiff, hfits⟩ := fibo_seq_X_spec W n p hn
  have hm2 : 2 ≤ m := by
    by_contra hc
    have h1' : m = 1 := by omega
    subst h1'
    have e1 : Fib 1 = 1 := rfl
    have e2 : Fib (1 + 1) = 1 := rfl
    omega
  have hkm : k = m := by
    rcases Nat.lt_trichotomy k m with h | h | h
    · have h2 := (hiff.mp (hov (by omega))).2
      have := Fib_mono (show k + 1 ≤ m by omega)
      omega
    · exact h
    · have := hfits (m + 1) (by omega) (by omega)
      omega
  subst hkm
  have hovf : ovf = true := hiff.mpr ⟨hm2, hnext⟩
  rw [hrun, hovf]

/-! ## Further facts used by the claims -/

/-- An index `m` with `F(m) < 2^W ≤ F(m+1)` is the largest index whose
Fibonacci number fits in `W` bits. -/
theorem isGreatest_of_bounds (W m : Nat) (hm : 1 ≤ m) (hfit : Fib m < 2 ^ W)
    (hnext : 2 ^ W ≤ Fib (m + 1)) :
    IsGreatest {k | 1 ≤ k ∧ Fib k < 2 ^ W} m := by
  refine ⟨⟨hm, hfit⟩, ?_⟩
  rintro k ⟨_, hk⟩
  by_contra hc
  have := Fib_mono (show m + 1 ≤ k by omega)
  omega

/-- The two bounds that fix the reach of 8192-bit operands. -/
theorem Fib_bounds_8192 : Fib 11801 < 2 ^ 8192 ∧ 2 ^ 8192 ≤ Fib 11802 := by
  rw [Fib_eq_fib, Fib_eq_fib]
  constructor <;> norm_num

theorem fibTrace_getLast (m : Nat) (hm : 1 ≤ m) :
    (fibTrace m).getLast? = some (m, Fib m) := by
  obtain ⟨k, rfl⟩ : ∃ k, m = k + 1 := ⟨m - 1, by omega⟩
  rw [fibTrace, fibPairs_concat, List.getLast?_concat, Nat.add_comm]

theorem fibTrace_getElem (m k : Nat) (hk : 1 ≤ k) (hkm : k ≤ m) :
    (fibTrace m)[k - 1]? = some (k, Fib k) := by
  obtain ⟨j, rfl⟩ : ∃ j, k = j + 1 := ⟨k - 1, by omega⟩
  have h : j < m := by omega
  simp [fibTrace, fibPairs, List.getElem?_range', h, Nat.add_comm]

/-- The prime-index branch of `spit_fizz`: a value divisible by neither 3 nor 5
at a tabulated index prints the prime label. -/
theorem spit_fizz_prime_label (n v : Nat) (h3 : ¬ 3 ∣ v) (h5 : ¬ 5 ∣ v)
    (hp : is_FiboPrime n = true) :
    spit_fizz n v true = dec n ++ "  " ++ "BuzzFizz!!  " ++ "\n" := by
  have e3 : ¬ v % 3 = 0 := fun h => h3 (Nat.dvd_of_mod_eq_zero h)
  have e5 : ¬ v % 5 = 0 := fun h => h5 (Nat.dvd_of_mod_eq_zero h)
  simp [spit_fizz, e3, e5, hp, String.append_assoc]

theorem fibPairs_append (a l1 l2 : Nat) :
    fibPairs a (l1 + l2) = fibPairs a l1 ++ fibPairs (a + l1) l2 := by
  rw [fibPairs, fibPairs, fibPairs, ← List.map_append, List.range'_append_1,
    Nat.add_comm l1 l2]

/-! ## States inside the loop -/

/-- A round of the loop body whose sum fits: index, `result` and `b` move
one Fibonacci number on and the flag stays clear. -/
theorem fibo_body_fits (W i : Nat) (p : Bool) (o : String) (cs : List (Nat × Nat))
    (hfit : Fib (i + 1) + Fib i < 2 ^ W) (hi : i + 1 < 2 ^ 32) :
    fibo_body W p
        { i := i, result := Fib i, b := Fib (i + 1), overflow := false,
          out := o, calls := cs }
      = { i := i + 1, result := Fib (i + 1), b := Fib (i + 1 + 1),
          overflow := false, out := o ++ spit_fizz i (Fib i) p,
          calls := cs ++ [(i, Fib i)] } := by
  have hwrap : (i + 1) % 4294967296 = i + 1 := Nat.mod_eq_of_lt (by omega)
  simp [fibo_body, UInt_Add, hfit, hwrap, Fib_add_two]

/-- Every round of the loop body moves the old `b` into `result`. -/
theorem fibo_body_result (W : Nat) (p : Bool) (s : FiboState) :
    (fibo_body W p s).result = s.b := rfl

/-- The state after `k` rounds of the loop body, as long as the sums fit:
index `k+1`, `result = F(k+1)`, `b = F(k+2)`, flag clear. -/
theorem fibo_body_iterate (W : Nat) (p : Bool) :
    ∀ k, Fib (k + 2) < 2 ^ W → k + 1 < 2 ^ 32 →
      (fibo_body W p)^[k]
          { i := 1, result := 1, b := 1, overflow := false, out := "", calls := [] }
        = { i := k + 1, result := Fib (k + 1), b := Fib (k + 2), overflow := false,
            out := printed p (fibPairs 1 k), calls := fibPairs 1 k } := by
  intro k
  induction k with
  | zero => intro _ _; rfl
  | succ k ih =>
    intro hfit hk
    have hprev : Fib (k + 2) < 2 ^ W :=
      Nat.lt_of_le_of_lt (Fib_mono (by omega)) hfit
    have hsum : Fib (k + 1 + 1) + Fib (k + 1) < 2 ^ W := by
      rw [← Fib_add_two]; exact hfit
    rw [Function.iterate_succ_apply', ih hprev (by omega),
      fibo_body_fits W (k + 1) p _ _ hsum hk, fibPairs_concat, printed_append]
    simp only [printed, String.append_empty, Nat.add_comm 1 k]

/-! ## Output suppression -/

theorem spit_fizz_quiet (n v : Nat) : spit_fizz n v false = "" := by
  unfold spit_fizz
  by_cases h3 : v % 3 = 0 <;> by_cases h5 : v % 5 = 0 <;>
    by_cases hp : is_FiboPrime n = true <;> simp [h3, h5, hp]

theorem fibo_body_quiet (W : Nat) (s : FiboState) :
    fibo_body W false { s with out := "" } = { fibo_body W true s with out := "" } := by
  simp [fibo_body, spit_fizz_quiet]

theorem fibo_loop_quiet (W n : Nat) :
    ∀ fuel s, fibo_loop W n false fuel { s with out := "" }
      = (fibo_loop W n true fuel s).map (fun t => { t with out := "" }) := by
  intro fuel
  induction fuel with
  | zero =>
    intro s
    simp only [fibo_loop]
    split <;> rfl
  | succ f ih =>
    intro s
    simp only [fibo_loop]
    split
    · rw [fibo_body_quiet, ih]
    · rfl

theorem fibo_seq_X_quiet (W n : Nat) :
    fibo_seq_X W n false
      = (fibo_seq_X W n true).map (fun r => { r with out := "" }) := by
  have h := fibo_loop_quiet W n n
    { i := 1, result := 1, b := 1, overflow := false, out := "", calls := [] }
  simp only at h
  simp only [fibo_seq_X]
  rw [h]
  cases fibo_loop W n true n
      { i := 1, result := 1, b := 1, overflow := false, out := "", calls := [] } with
  | none => rfl
  | some s => simp [spit_fizz_quiet]

/-! ## Divisibility of Fibonacci numbers by 3 and 5 -/

theorem not_three_dvd_Fib (n : Nat) (h : ¬ 4 ∣ n) : ¬ 3 ∣ Fib n := by
  intro hd
  rw [Fib_eq_fib] at hd
  have h4 : Nat.fib 4 = 3 := rfl
  have hg : 3 ∣ Nat.fib (Nat.gcd 4 n) := by
    rw [Nat.fib_gcd, h4]
    exact Nat.dvd_gcd (Nat.dvd_refl 3) hd
  have hdiv : Nat.gcd 4 n ∣ 4 := Nat.gcd_dvd_left 4 n
  have hle : Nat.gcd 4 n ≤ 4 := Nat.le_of_dvd (by decide) hdiv
  have hne : Nat.gcd 4 n ≠ 4 := fun he => h (he ▸ Nat.gcd_dvd_right 4 n)
  generalize Nat.gcd 4 n = g at hg hdiv hle hne
  interval_cases g
  · exact absurd hdiv (by decide)
  · exact absurd hg (by decide)
  · exact absurd hg (by decide)
  · exact absurd hdiv (by decide)
  · exact absurd rfl hne

theorem not_five_dvd_Fib (n : Nat) (h : ¬ 5 ∣ n) : ¬ 5 ∣ Fib n := by
  intro hd
  rw [Fib_eq_fib] at hd
  have h5 : Nat.fib 5 = 5 := rfl
  have hco : Nat.gcd 5 n = 1 := (Nat.Prime.coprime_iff_not_dvd Nat.prime_five).2 h
  have hg : 5 ∣ Nat.fib (Nat.gcd 5 n) := by
    rw [Nat.fib_gcd, h5]
    exact Nat.dvd_gcd (Nat.dvd_refl 5) hd
  rw [hco] at hg
  exact absurd hg (by decide)

theorem FiboPrimes_residues :
    ∀ i ∈ FiboPrimes, i ≠ 4 → i ≠ 5 → i % 4 ≠ 0 ∧ i % 5 ≠ 0 := by
  decide

/-! ## Primality of the two largest Fibonacci numbers below index 50 -/

/-- `F(43) = 433494437` is prime (Lucas test with base 2;
`433494436 = 2^2 * 29 * 89 * 199 * 211`). -/
theorem prime_433494437 : Nat.Prime 433494437 := by
  refine lucas_primality 433494437 (2 : ZMod 433494437) (by reduce_mod_char) ?_
  intro q hq hdvd
  have hfac : 433494437 - 1 = 2 ^ 2 * 29 * 89 * 199 * 211 := by norm_num
  have hcases : q = 2 ∨ q = 29 ∨ q = 89 ∨ q = 199 ∨ q = 211 := by
    rw [hfac] at hdvd
    simp only [hq.dvd_mul] at hdvd
    rcases hdvd with (((h | h) | h) | h) | h
    · exact Or.inl ((Nat.prime_dvd_prime_iff_eq hq Nat.prime_two).1 (hq.dvd_of_dvd_pow h))
    · exact Or.inr (Or.inl ((Nat.prime_dvd_prime_iff_eq hq (by norm_num)).1 h))
    · exact Or.inr (Or.inr (Or.inl ((Nat.prime_dvd_prime_iff_eq hq (by norm_num)).1 h)))
    · exact Or.inr (Or.inr (Or.inr (Or.inl
        ((Nat.prime_dvd_prime_iff_eq hq (by norm_num)).1 h))))
    · exact Or.inr (Or.inr (Or.inr (Or.inr
        ((Nat.prime_dvd_prime_iff_eq hq (by norm_num)).1 h))))
  rcases hcases with rfl | rfl | rfl | rfl | rfl
  · show (2 : ZMod 433494437) ^ 216747218 ≠ 1
    reduce_mod_char
    decide
  · show (2 : ZMod 433494437) ^ 14948084 ≠ 1
    reduce_mod_char
    decide
  · show (2 : ZMod 433494437) ^ 4870724 ≠ 1
    reduce_mod_char
    decide
  · show (2 : ZMod 433494437) ^ 2178364 ≠ 1
    reduce_mod_char
    decide
  · show (2 : ZMod 433494437) ^ 2054476 ≠ 1
    reduce_mod_char
    decide

/-- `F(47) = 2971215073` is prime (Lucas test with base 5;
`2971215072 = 2^5 * 3^2 * 7 * 23 * 139 * 461`). -/
theorem prime_2971215073 : Nat.Prime 2971215073 := by
  refine lucas_primality 2971215073 (5 : ZMod 2971215073) (by reduce_mod_char) ?_
  intro q hq hdvd
  have hfac : 2971215073 - 1 = 2 ^ 5 * 3 ^ 2 * 7 * 23 * 139 * 461 := by norm_num
  have hcases : q = 2 ∨ q = 3 ∨ q = 7 ∨ q = 23 ∨ q = 139 ∨ q = 461 := by
    rw [hfac] at hdvd
    simp only [hq.dvd_mul] at hdvd
    rcases hdvd with ((((h | h) | h) | h) | h) | h
    · exact Or.inl ((Nat.prime_dvd_prime_iff_eq hq Nat.prime_two).1 (hq.dvd_of_dvd_pow h))
    · exact Or.inr (Or.inl
        ((Nat.prime_dvd_prime_iff_eq hq Nat.prime_three).1 (hq.dvd_of_dvd_pow h)))
    · exact Or.inr (Or.inr (Or.inl ((Nat.prime_dvd_prime_iff_eq hq (by norm_num)).1 h)))
    · exact Or.inr (Or.inr (Or.inr (Or.inl
        ((Nat.prime_dvd_prime_iff_eq hq (by norm_num)).1 h))))
    · exact Or.inr (Or.inr (Or.inr (Or.inr (Or.inl
        ((Nat.prime_dvd_prime_iff_eq hq (by norm_num)).1 h)))))
    · exact Or.inr (Or.inr (Or.inr (Or.inr (Or.inr
        ((Nat.prime_dvd_prime_iff_eq hq (by norm_num)).1 h)))))
  rcases hcases with rfl | rfl | rfl | rfl | rfl | rfl
  · show (5 : ZMod 2971215073) ^ 1485607536 ≠ 1
    reduce_mod_char
    decide
  · show (5 : ZMod 2971215073) ^ 990405024 ≠ 1
    reduce_mod_char
    decide
  · show (5 : ZMod 2971215073) ^ 424459296 ≠ 1
    reduce_mod_char
    decide
  · show (5 : ZMod 2971215073) ^ 129183264 ≠ 1
    reduce_mod_char
    decide
  · show (5 : ZMod 2971215073) ^ 21375648 ≠ 1
    reduce_mod_char
    decide
  · show (5 : ZMod 2971215073) ^ 6445152 ≠ 1
    reduce_mod_char
    decide

theorem tabulated_43 : 43 ∈ FiboPrimes ↔ Nat.Prime (Nat.fib 43) := by
  have h : Nat.fib 43 = 433494437 := by norm_num
  rw [h]
  exact ⟨fun _ => prime_433494437, fun _ => by decide⟩

theorem tabulated_47 : 47 ∈ FiboPrimes ↔ Nat.Prime (Nat.fib 47) := by
  have h : Nat.fib 47 = 2971215073 := by norm_num
  rw [h]
  exact ⟨fun _ => prime_2971215073, fun _ => by decide⟩

/-! ## The round that overflows -/

/-- The flag after a round of the loop body: set by a carry, otherwise kept. -/
theorem fibo_body_flag (W : Nat) (p : Bool) (s : FiboState) :
    (fibo_body W p s).overflow = ((UInt_Add W s.b s.result).2 || s.overflow) := by
  simp only [fibo_body]
  cases (UInt_Add W s.b s.result).2 <;> simp

/-- The addition of a round carries exactly when the sum does not fit. -/
theorem UInt_Add_carry_iff (W a b : Nat) :
    (UInt_Add W a b).2 = true ↔ 2 ^ W ≤ a + b := by
  unfold UInt_Add
  by_cases h : a + b < 2 ^ W
  · rw [if_pos h]; simp only [Bool.false_eq_true, false_iff]; omega
  · rw [if_neg h]; simp only [true_iff]; omega

/-- As long as the flag is clear after `k` rounds of the loop body, no round
carried: the state is at index `k+1` with `result = F(k+1)`, `b = F(k+2)`,
and every sum formed so far fits. -/
theorem fibo_body_iterate_clear (W : Nat) (p : Bool) :
    ∀ k, k + 1 < 2 ^ 32 →
      ((fibo_body W p)^[k]
          { i := 1, result := 1, b := 1, overflow := false, out := "", calls := [] }).overflow
        = false →
      (fibo_body W p)^[k]
          { i := 1, result := 1, b := 1, overflow := false, out := "", calls := [] }
        = { i := k + 1, result := Fib (k + 1), b := Fib (k + 2), overflow := false,
            out := printed p (fibPairs 1 k), calls := fibPairs 1 k } ∧
      (1 ≤ k → Fib (k + 2) < 2 ^ W) := by
  intro k
  induction k with
  | zero => intro _ _; exact ⟨rfl, fun h => absurd h (by decide)⟩
  | succ k ih =>
    intro hk hflag
    rw [Function.iterate_succ_apply', fibo_body_flag, Bool.or_eq_false_iff] at hflag
    obtain ⟨hstate, _⟩ := ih (by omega) hflag.2
    have hfit : Fib (k + 1 + 1) + Fib (k + 1) < 2 ^ W := by
      have hc := hflag.1
      rw [hstate] at hc
      by_contra hno
      have := (UInt_Add_carry_iff W (Fib (k + 1 + 1)) (Fib (k + 1))).mpr (by omega)
      rw [this] at hc
      exact absurd hc (by decide)
    have hnext : Fib (k + 1 + 2) < 2 ^ W := by rw [Fib_add_two]; exact hfit
    refine ⟨?_, fun _ => hnext⟩
    rw [Function.iterate_succ_apply', hstate,
      fibo_body_fits W (k + 1) p _ _ hfit hk, fibPairs_concat, printed_append]
    simp only [printed, String.append_empty, Nat.add_comm 1 k]

/-- The loop runs through its first `k` rounds when the loop condition holds
in each of the states before them. -/
theorem fibo_loop_iterate (W n : Nat) (p : Bool) :
    ∀ k fuel s,
      (∀ j, j < k → ((fibo_body W p)^[j] s).i < n ∧
        ((fibo_body W p)^[j] s).overflow = false) →
      fibo_loop W n p (k + fuel) s = fibo_loop W n p fuel ((fibo_body W p)^[k] s) := by
  intro k
  induction k with
  | zero => intro fuel s _; simp
  | succ k ih =>
    intro fuel s h
    have h0 := h 0 (by omega)
    simp only [Function.iterate_zero, id_eq] at h0
    have hcond : (decide (s.i < n) && !s.overflow) = true := by simp [h0.1, h0.2]
    have hfuel : k + 1 + fuel = (k + fuel) + 1 := by omega
    rw [hfuel, fibo_loop, if_pos hcond, Function.iterate_succ_apply]
    refine ih fuel _ fun j hj => ?_
    have := h (j + 1) (by omega)
    rwa [Function.iterate_succ_apply] at this

/-! ## Soundness of the certificate checks -/

theorem force_eq {α : Type} (x : Nat) (k : Nat → α) : force x k = k x := by
  cases x <;> rfl

theorem raw_mod (a b : Nat) : Nat.mod a b = a % b := rfl

theorem raw_div (a b : Nat) : Nat.div a b = a / b := rfl

theorem raw_shiftRight (a b : Nat) : Nat.shiftRight a b = a / 2 ^ b :=
  Nat.shiftRight_eq_div_pow a b

theorem raw_shiftLeft (a b : Nat) : Nat.shiftLeft a b = a * 2 ^ b :=
  Nat.shiftLeft_eq a b

theorem raw_beq (a b : Nat) : (Nat.beq a b = true) = (a = b) :=
  propext ⟨Nat.eq_of_beq_eq_true, fun h => h ▸ Nat.beq_refl a⟩

theorem raw_beq_false (a b : Nat) : (Nat.beq a b = false) = (a ≠ b) := by
  refine propext ⟨fun h he => ?_, fun h => ?_⟩
  · rw [he, Nat.beq_refl] at h
    exact absurd h (by decide)
  · cases hb : Nat.beq a b
    · rfl
    · exact absurd (Nat.eq_of_beq_eq_true hb) h

theorem raw_blt (a b : Nat) : (Nat.blt a b = true) = (a < b) :=
  propext ⟨fun h => Nat.le_of_ble_eq_true h, fun h => Nat.ble_eq_true_of_le h⟩

theorem raw_blt_false (a b : Nat) : (Nat.blt a b = false) = (b ≤ a) := by
  refine propext ⟨fun h => ?_, fun h => ?_⟩
  · refine Nat.le_of_not_lt fun hlt => ?_
    rw [← raw_blt, h] at hlt
    exact absurd hlt (by decide)
  · cases hb : Nat.blt a b
    · rfl
    · rw [raw_blt] at hb
      omega

theorem fibFastAux_eq : ∀ f k, k < 2 ^ f → fibFastAux f k = (Nat.fib k, Nat.fib (k + 1)) := by
  intro f
  induction f with
  | zero =>
    intro k hk
    have hk0 : k = 0 := by simpa using hk
    subst hk0
    rfl
  | succ f ih =>
    intro k hk
    by_cases hk0 : k = 0
    · subst hk0; rfl
    · have hb : Nat.beq k 0 = false := by rw [raw_beq_false]; exact hk0
      have hhalf : k / 2 < 2 ^ f := by
        rw [Nat.div_lt_iff_lt_mul (by decide)]
        rw [Nat.pow_succ] at hk
        exact hk
      have hrec := ih (k / 2) hhalf
      have hc : Nat.fib (k / 2) * (2 * Nat.fib (k / 2 + 1) - Nat.fib (k / 2))
          = Nat.fib (2 * (k / 2)) := (Nat.fib_two_mul (k / 2)).symm
      have hd : Nat.fib (k / 2) * Nat.fib (k / 2) + Nat.fib (k / 2 + 1) * Nat.fib (k / 2 + 1)
          = Nat.fib (2 * (k / 2) + 1) := by
        rw [Nat.fib_two_mul_add_one]; ring
      rcases Nat.mod_two_eq_zero_or_one k with hm | hm
      · have hk2 : 2 * (k / 2) = k := by omega
        have hbm : Nat.beq (k % 2) 0 = true := by rw [hm]; rfl
        simp only [fibFastAux, hb, raw_div, raw_mod, hrec, force_eq, Nat.mul_eq, Nat.sub_eq,
          Nat.add_eq, hc, hd, hbm, hk2]
      · have hk2 : 2 * (k / 2) + 1 = k := by omega
        have hbm : Nat.beq (k % 2) 0 = false := by rw [hm]; rfl
        have e1 : Nat.fib (2 * (k / 2)) + Nat.fib (2 * (k / 2) + 1) = Nat.fib (k + 1) := by
          rw [← Nat.fib_add_two]
          congr 1
          omega
        simp only [fibFastAux, hb, raw_div, raw_mod, hrec, force_eq, Nat.mul_eq, Nat.sub_eq,
          Nat.add_eq, hc, hd, hbm, e1]
        rw [hk2]

theorem fibFast_eq (k : Nat) (hk : k < 2 ^ 14) : fibFast k = Nat.fib k := by
  rw [fibFast, fibFastAux_eq 14 k hk]

theorem fermatStep_modEq (n e k x : Nat)
    (h : x ≡ 2 ^ (e / 2 ^ (k + 2)) [MOD n]) :
    fermatStep n e k x ≡ 2 ^ (e / 2 ^ k) [MOD n] := by
  have hval : fermatStep n e k x = (x ^ 4 * 2 ^ (e / 2 ^ k % 4)) % n := by
    simp only [fermatStep, raw_mod, raw_shiftLeft, Nat.pow_eq, raw_shiftRight]
  have hq : e / 2 ^ (k + 2) = e / 2 ^ k / 4 := by
    rw [Nat.pow_add, Nat.div_div_eq_div_mul]
  have hsplit : 2 ^ (e / 2 ^ k) = (2 ^ (e / 2 ^ k / 4)) ^ 4 * 2 ^ (e / 2 ^ k % 4) := by
    rw [← Nat.pow_mul, ← Nat.pow_add, Nat.mul_comm, Nat.div_add_mod]
  rw [hval, hsplit]
  refine (Nat.mod_modEq _ _).trans ?_
  rw [hq] at h
  exact (h.pow 4).mul_right _

theorem fermat4_modEq (n e k x : Nat)
    (h : x ≡ 2 ^ (e / 2 ^ (k + 8)) [MOD n]) :
    fermat4 n e k x ≡ 2 ^ (e / 2 ^ k) [MOD n] := by
  unfold fermat4
  simp only [Nat.add_eq]
  exact fermatStep_modEq n e k _ (fermatStep_modEq n e (k + 2) _
    (fermatStep_modEq n e (k + 4) _ (fermatStep_modEq n e (k + 6) _ h)))

theorem fermat16_modEq (n e k x : Nat)
    (h : x ≡ 2 ^ (e / 2 ^ (k + 32)) [MOD n]) :
    fermat16 n e k x ≡ 2 ^ (e / 2 ^ k) [MOD n] := by
  unfold fermat16
  simp only [Nat.add_eq]
  exact fermat4_modEq n e k _ (fermat4_modEq n e (k + 8) _
    (fermat4_modEq n e (k + 16) _ (fermat4_modEq n e (k + 24) _ h)))

theorem fermat64_modEq (n e k x : Nat)
    (h : x ≡ 2 ^ (e / 2 ^ (k + 128)) [MOD n]) :
    fermat64 n e k x ≡ 2 ^ (e / 2 ^ k) [MOD n] := by
  unfold fermat64
  simp only [Nat.add_eq]
  exact fermat16_modEq n e k _ (fermat16_modEq n e (k + 32) _
    (fermat16_modEq n e (k + 64) _ (fermat16_modEq n e (k + 96) _ h)))

theorem fermatRun_modEq (n e : Nat) :
    ∀ f x, x ≡ 2 ^ (e / 2 ^ (128 * f)) [MOD n] → fermatRun n e f x ≡ 2 ^ e [MOD n] := by
  intro f
  induction f with
  | zero =>
    intro x h
    simpa [fermatRun] using h
  | succ f ih =>
    intro x h
    simp only [fermatRun, force_eq, Nat.mul_eq]
    refine ih _ (fermat64_modEq n e (128 * f) x ?_)
    have : 128 * f + 128 = 128 * (f + 1) := by ring
    rw [this]
    exact h

theorem fermatComposite_sound (p : Nat) (hp : p < 2 ^ 14)
    (h : fermatComposite p = true) : ¬ (Nat.fib p).Prime := by
  intro hprime
  simp only [fermatComposite, force_eq, fibFast_eq p hp, Nat.sub_eq, Nat.add_eq, raw_div,
    Nat.mul_eq, raw_mod, raw_shiftRight, Bool.and_eq_true, Bool.not_eq_true', raw_beq,
    raw_beq_false, raw_blt] at h
  obtain ⟨h2', hsmall', hne⟩ := h
  have hrun := fermatRun_modEq (Nat.fib p) (Nat.fib p - 1) (p / 128 + 1) 1
    (by rw [hsmall']; rfl)
  have hco : Nat.Coprime 2 (Nat.fib p) :=
    (Nat.coprime_primes Nat.prime_two hprime).2 (by omega)
  have hfermat : 2 ^ (Nat.fib p - 1) ≡ 1 [MOD Nat.fib p] := by
    have := Nat.ModEq.pow_totient hco
    rwa [Nat.totient_prime hprime] at this
  have hone : fermatRun (Nat.fib p) (Nat.fib p - 1) (p / 128 + 1) 1 % Nat.fib p = 1 := by
    have := hrun.trans hfermat
    rw [Nat.ModEq] at this
    rw [this]
    exact Nat.mod_eq_of_lt (by omega)
  exact hne hone

theorem factorComposite_sound (p q : Nat) (hp : p < 2 ^ 14)
    (h : factorComposite p q = true) : ¬ (Nat.fib p).Prime := by
  intro hprime
  simp only [factorComposite, force_eq, fibFast_eq p hp, raw_mod, Bool.and_eq_true, raw_beq,
    raw_blt] at h
  obtain ⟨h1', h2', h3⟩ := h
  have hdvd : q ∣ Nat.fib p := Nat.dvd_of_mod_eq_zero h3
  rcases (Nat.dvd_prime hprime).1 hdvd with h | h <;> omega

theorem hasDivisorFrom_sound : ∀ f d k, 2 ≤ d → hasDivisorFrom f d k = true →
    ∃ d', 2 ≤ d' ∧ d' < k ∧ d' ∣ k := by
  intro f
  induction f with
  | zero => intro d k _ h; simp [hasDivisorFrom] at h
  | succ f ih =>
    intro d k hd h
    simp only [hasDivisorFrom, raw_mod, Nat.mul_eq, Nat.add_eq] at h
    cases hb : Nat.beq (k % d) 0 with
    | true =>
      simp only [hb, raw_blt] at h
      rw [raw_beq] at hb
      exact ⟨d, hd, h, Nat.dvd_of_mod_eq_zero hb⟩
    | false =>
      cases hc : Nat.blt k (d * d) with
      | true => simp [hb, hc] at h
      | false =>
        simp only [hb, hc] at h
        exact ih (d + 1) k (by omega) h

/-- A Fibonacci number at a composite index other than 4 is composite. -/
theorem fib_not_prime_of_proper_divisor (k d : Nat) (hd : 2 ≤ d) (hdk : d < k)
    (hdvd : d ∣ k) (hk4 : k ≠ 4) : ¬ (Nat.fib k).Prime := by
  intro hprime
  -- a divisor `m` of `k` with `3 ≤ m < k`
  obtain ⟨m, hm3, hmk, hmdvd⟩ : ∃ m, 3 ≤ m ∧ m < k ∧ m ∣ k := by
    by_cases h3 : 3 ≤ d
    · exact ⟨d, h3, hdk, hdvd⟩
    · have hd2 : d = 2 := by omega
      subst hd2
      obtain ⟨c, hc⟩ := hdvd
      refine ⟨c, by omega, by omega, ⟨2, by omega⟩⟩
  have hfd : Nat.fib m ∣ Nat.fib k := Nat.fib_dvd m k hmdvd
  have hlt : Nat.fib m < Nat.fib k := Nat.fib_strictMonoOn (by simp; omega) (by simp; omega) hmk
  have h2 : 2 ≤ Nat.fib m := by
    have := Nat.fib_mono hm3
    have e : Nat.fib 3 = 2 := rfl
    omega
  rcases (Nat.dvd_prime hprime).1 hfd with h | h <;> omega

theorem checkRange_sound : ∀ fuel k0 L, checkRange fuel k0 L = true →
    ∀ k, k0 ≤ k → k < k0 + fuel → k < 2 ^ 14 → (Nat.fib k).Prime → k ∈ FiboPrimes := by
  intro fuel
  induction fuel with
  | zero => intro k0 L _ k h1 h2; omega
  | succ fuel ih =>
    intro k0 L hcheck k h1 h2 hk hprime
    have hdiv : hasDivisorFrom 110 2 k0 = true → k = k0 → k ∈ FiboPrimes := by
      intro hd hkk
      subst hkk
      obtain ⟨d, hd2, hdk, hdvd⟩ := hasDivisorFrom_sound 110 2 k (by decide) hd
      by_cases hk4 : k = 4
      · subst hk4; decide
      · exact absurd hprime (fib_not_prime_of_proper_divisor k d hd2 hdk hdvd hk4)
    cases L with
    | nil =>
      simp only [checkRange, Nat.add_eq, Bool.and_eq_true] at hcheck
      rcases Nat.eq_or_lt_of_le h1 with h | h
      · exact hdiv hcheck.1 h.symm
      · exact ih (k0 + 1) [] hcheck.2 k (by omega) (by omega) hk hprime
    | cons c L =>
      obtain ⟨p, q⟩ := c
      simp only [checkRange, Nat.add_eq] at hcheck
      cases hb : Nat.beq k0 p with
      | true =>
        rw [hb] at hcheck
        simp only [Bool.and_eq_true] at hcheck
        have hp : k0 = p := Nat.eq_of_beq_eq_true hb
        rcases Nat.eq_or_lt_of_le h1 with h | h
        · subst hp
          subst h
          have hcert := hcheck.1
          unfold certOK at hcert
          split at hcert
          · exact absurd hprime (fermatComposite_sound _ hk hcert)
          · simp only [Bool.or_eq_true] at hcert
            rcases hcert with h2 | hmem
            · have : k0 = 2 := Nat.eq_of_beq_eq_true h2
              subst this
              exact absurd hprime (by decide)
            · simpa using hmem
          · exact absurd hprime (factorComposite_sound _ _ hk hcert)
        · exact ih (k0 + 1) L hcheck.2 k (by omega) (by omega) hk hprime
      | false =>
        rw [hb] at hcheck
        simp only [Bool.and_eq_true] at hcheck
        rcases Nat.eq_or_lt_of_le h1 with h | h
        · exact hdiv hcheck.1 h.symm
        · exact ih (k0 + 1) ((p, q) :: L) hcheck.2 k (by omega) (by omega) hk hprime

/-! ## Completeness of the table up to index 11801 -/

/-- Every block of certificates passes the check. -/
theorem certChunks_ok :
    ∀ i, i < 118 → checkRange 100 (100 * i + 2) (certChunks.getD i []) = true := by
  intro i hi
  interval_cases i <;> decide!

/-- On the indices `1..11801` the table is complete: an index whose Fibonacci
number is prime is an entry of `FiboPrimes`. -/
theorem Fib_prime_tabulated (k : Nat) (h1 : 1 ≤ k) (hk : k ≤ 11801)
    (hprime : (Fib k).Prime) : k ∈ FiboPrimes := by
  rw [Fib_eq_fib] at hprime
  by_cases hk1 : k = 1
  · subst hk1
    exact absurd hprime (by decide)
  · have hi : (k - 2) / 100 < 118 := by omega
    exact checkRange_sound 100 (100 * ((k - 2) / 100) + 2) _
      (certChunks_ok ((k - 2) / 100) hi) k (by omega) (by omega) (by omega) hprime

/-! ## Claims -/

/-- C1: for every operand width `W` and requested length `n ≥ 1` with
`F(n) < 2^W`, `fibo_seq_X` returns, having called `spit_fizz` on exactly the
pairs `(i, F(i))` for `i = 1, ..., n` in that order, with final index `n` and
result `F(n)`. -/
theorem fibo_seq_X_generates_fibonacci (W n : Nat) (p_en : Bool)
    (h1 : 1 ≤ n) (hn : n < 2 ^ 32) (hfit : Fib n < 2 ^ W) :
    ∃ r, fibo_seq_X W n p_en = some r ∧
      r.calls = (List.range' 1 n).map (fun i => (i, Fib i)) ∧
      r.n = n ∧ r.result = Fib n := by
  obtain ⟨ovf, hrun, _⟩ := fibo_seq_X_fits W n p_en h1 hn hfit
  exact ⟨_, hrun, rfl, rfl, rfl⟩

theorem fibo_seq_X_generates_fibonacci_witness :
    ∃ r, fibo_seq_X 8192 20 true = some r ∧
      r.calls = (List.range' 1 20).map (fun i => (i, Fib i)) ∧
      r.n = 20 ∧ r.result = Fib 20 :=
  fibo_seq_X_generates_fibonacci 8192 20 true (by decide) (by norm_num)
    (by rw [Fib_eq_fib]; norm_num)

/-- C2: for every operand width `W`, if `nstar` is the largest index with
`F(nstar) < 2^W`, then for every requested length `n > nstar` the run halts at
`nstar`: `spit_fizz` is called on the indices `1..nstar` only, the final index
is `nstar`, the result is the true `F(nstar)` and the returned flag is true. -/
theorem fibo_seq_X_halts_at_last_fitting_index (W nstar n : Nat) (p_en : Bool)
    (hstar : IsGreatest {k | 1 ≤ k ∧ Fib k < 2 ^ W} nstar)
    (hlt : nstar < n) (hn : n < 2 ^ 32) :
    ∃ r, fibo_seq_X W n p_en = some r ∧
      r.calls = (List.range' 1 nstar).map (fun i => (i, Fib i)) ∧
      r.n = nstar ∧ r.result = Fib nstar ∧ r.overflow = true := by
  obtain ⟨⟨hs1, hsfit⟩, hub⟩ := hstar
  have hnext : 2 ^ W ≤ Fib (nstar + 1) := by
    by_contra hc
    have hmem : nstar + 1 ∈ {k | 1 ≤ k ∧ Fib k < 2 ^ W} := ⟨by omega, by omega⟩
    have := hub hmem
    omega
  have hrun := fibo_seq_X_overflow W nstar n p_en hs1 (by omega) hn hsfit hnext
  exact ⟨_, hrun, rfl, rfl, rfl, rfl⟩

theorem fibo_seq_X_halts_at_last_fitting_index_witness :
    ∃ r, fibo_seq_X 64 100 true = some r ∧
      r.calls = (List.range' 1 93).map (fun i => (i, Fib i)) ∧
      r.n = 93 ∧ r.result = Fib 93 ∧ r.overflow = true :=
  fibo_seq_X_halts_at_last_fitting_index 64 93 100 true
    (isGreatest_of_bounds 64 93 (by decide) (by rw [Fib_eq_fib]; norm_num)
      (by rw [Fib_eq_fib]; norm_num))
    (by decide) (by norm_num)

/-- C3: for every index `n` and value `v`, the line written by
`spit_fizz(n, v, true)` is the decimal index, two spaces, the label text and a
newline, where the label text is `"Buzz   "` if 3 divides `v`, followed by
`"Fizz   "` if 5 divides `v`, and, if neither divides `v`, `"BuzzFizz!!  "`
when `is_FiboPrime(n)` holds and the decimal numeral of `v` otherwise. -/
theorem spit_fizz_line (n v : Nat) :
    spit_fizz n v true
      = dec n ++ "  "
        ++ ((if 3 ∣ v then "Buzz   " else "")
            ++ (if 5 ∣ v then "Fizz   " else "")
            ++ (if ¬ 3 ∣ v ∧ ¬ 5 ∣ v then
                  (if is_FiboPrime n = true then "BuzzFizz!!  " else dec v)
                else ""))
        ++ "\n" := by
  unfold spit_fizz
  by_cases h3 : v % 3 = 0 <;> by_cases h5 : v % 5 = 0 <;>
    by_cases hp : is_FiboPrime n = true <;>
    simp [h3, h5, hp, Nat.dvd_iff_mod_eq_zero, String.append_assoc]

/-- C4: for every index `n` and every value `v` divisible by 3 or by 5, the
label written by `spit_fizz` (the text between the index prefix and the
newline) does not contain `"BuzzFizz!!"`; when `v` is divisible by both, the
label is exactly `"Buzz   Fizz   "`. -/
theorem spit_fizz_divisible_never_prime_label (n v : Nat) (h : 3 ∣ v ∨ 5 ∣ v) :
    ∃ label, spit_fizz n v true = dec n ++ "  " ++ label ++ "\n" ∧
      ¬ ("BuzzFizz!!".toList <:+: label.toList) ∧
      (3 ∣ v → 5 ∣ v → label = "Buzz   Fizz   ") := by
  have e3 : 3 ∣ v ↔ v % 3 = 0 := Nat.dvd_iff_mod_eq_zero
  have e5 : 5 ∣ v ↔ v % 5 = 0 := Nat.dvd_iff_mod_eq_zero
  unfold spit_fizz
  by_cases h3 : v % 3 = 0 <;> by_cases h5 : v % 5 = 0
  · exact ⟨"Buzz   Fizz   ", by simp [h3, h5, String.append_assoc], by decide,
      fun _ _ => rfl⟩
  · exact ⟨"Buzz   ", by simp [h3, h5, String.append_assoc], by decide,
      fun _ h => absurd (e5.mp h) h5⟩
  · exact ⟨"Fizz   ", by simp [h3, h5, String.append_assoc], by decide,
      fun h _ => absurd (e3.mp h) h3⟩
  · exact absurd h (by simp [e3, e5, h3, h5])

theorem spit_fizz_divisible_never_prime_label_witness :
    ∃ label, spit_fizz 4 3 true = dec 4 ++ "  " ++ label ++ "\n" ∧
      ¬ ("BuzzFizz!!".toList <:+: label.toList) ∧
      (3 ∣ 3 → 5 ∣ 3 → label = "Buzz   Fizz   ") :=
  spit_fizz_divisible_never_prime_label 4 3 (Or.inl (by decide))

/-- C5 (counterexample): index 4 is reached by the run of length 4, its
Fibonacci number `F(4) = 3` is prime, and the line printed for it is
`"4  Buzz   "`, which does not contain `"BuzzFizz"`. -/
theorem prime_value_three_prints_Buzz :
    Nat.Prime (Fib 4) ∧
    (fibo_seq_X MY_UINT_BITS 4 true).map (fun r => r.out)
      = some "1  1\n2  1\n3  BuzzFizz!!  \n4  Buzz   \n" ∧
    spit_fizz 4 (Fib 4) true = "4  Buzz   \n" ∧
    ¬ ("BuzzFizz".toList <:+: (spit_fizz 4 (Fib 4) true).toList) := by
  refine ⟨by rw [show Fib 4 = 3 from rfl]; norm_num, ?_, by decide, by decide⟩
  obtain ⟨ovf, hrun, _⟩ := fibo_seq_X_fits MY_UINT_BITS 4 true (by decide) (by norm_num)
    (by rw [show Fib 4 = 3 from rfl, MY_UINT_BITS]; norm_num)
  rw [hrun]
  show some (printed true (fibTrace 4)) = _
  decide

/-- C5 (amended): for every index `k` reached by a run (at the configured
operand width) whose Fibonacci number `F(k)` is a prime other than 3 and 5,
the line printed for `k` is the index followed by the label
`"BuzzFizz!!  "`. -/
theorem prime_other_than_3_5_prints_BuzzFizz (n k : Nat) (hn : n < 2 ^ 32)
    (hk : 1 ≤ k) (hreach : ∃ r, fibo_seq_X MY_UINT_BITS n true = some r ∧ k ≤ r.n)
    (hprime : Nat.Prime (Fib k)) (h3 : Fib k ≠ 3) (h5 : Fib k ≠ 5) :
    ∃ r, fibo_seq_X MY_UINT_BITS n true = some r ∧ r.out = printed true r.calls ∧
      r.calls[k - 1]? = some (k, Fib k) ∧
      spit_fizz k (Fib k) true = dec k ++ "  " ++ "BuzzFizz!!  " ++ "\n" := by
  rw [MY_UINT_BITS] at hreach ⊢
  obtain ⟨m, ovf, hrun, _, _, _, _, hfits⟩ := fibo_seq_X_spec 8192 n true hn
  obtain ⟨r, hr, hkr⟩ := hreach
  rw [hrun] at hr
  have hrn : m = r.n := by cases hr; rfl
  have hkm : k ≤ m := by omega
  refine ⟨_, hrun, rfl, fibTrace_getElem m k hk hkm, ?_⟩
  have hk_le : k ≤ 11801 := by
    by_contra hc
    have hfit : Fib k < 2 ^ 8192 := hfits k (by omega) hkm
    have hge : Fib 11802 ≤ Fib k := Fib_mono (by omega)
    have := Fib_bounds_8192.2
    omega
  have htab : k ∈ FiboPrimes := Fib_prime_tabulated k hk hk_le hprime
  have hn3 : ¬ 3 ∣ Fib k := fun h =>
    h3 ((Nat.prime_dvd_prime_iff_eq Nat.prime_three hprime).mp h).symm
  have hn5 : ¬ 5 ∣ Fib k := fun h =>
    h5 ((Nat.prime_dvd_prime_iff_eq Nat.prime_five hprime).mp h).symm
  exact spit_fizz_prime_label k (Fib k) hn3 hn5 ((is_FiboPrime_iff k).mpr htab)

theorem prime_other_than_3_5_prints_BuzzFizz_witness :
    ∃ r, fibo_seq_X MY_UINT_BITS 50 true = some r ∧ r.out = printed true r.calls ∧
      r.calls[47 - 1]? = some (47, Fib 47) ∧
      spit_fizz 47 (Fib 47) true = dec 47 ++ "  " ++ "BuzzFizz!!  " ++ "\n" :=
  prime_other_than_3_5_prints_BuzzFizz 50 47 (by norm_num) (by decide)
    (by
      obtain ⟨ovf, hrun, _⟩ := fibo_seq_X_fits 8192 50 true (by decide) (by norm_num)
        (by rw [Fib_eq_fib]; norm_num)
      exact ⟨_, hrun, show (47 : Nat) ≤ 50 by decide⟩)
    (by rw [Fib_eq_fib]; exact tabulated_47.mp (by decide))
    (by rw [Fib_eq_fib]; norm_num) (by rw [Fib_eq_fib]; norm_num)

/-- C6 (counterexample): at the configured width, the run of requested length
11801 returns the flag true although its final index is not smaller than the
requested length. -/
theorem flag_true_at_full_length :
    (fibo_seq_X MY_UINT_BITS 11801 true).map
        (fun r => (r.overflow, decide (r.n < 11801))) = some (true, false) := by
  rw [MY_UINT_BITS, fibo_seq_X_overflow 8192 11801 11801 true (by decide) (by decide)
    (by norm_num) Fib_bounds_8192.1 Fib_bounds_8192.2]
  rfl

/-- C6 (amended): for every requested length `n ≥ 1` and every operand width
`W`, the returned flag is true exactly when the final index is smaller than
`n`, or index `n` was reached (`n ≥ 2`) and the look-ahead sum `F(n+1)` of the
last round did not fit in `W` bits. -/
theorem flag_iff_short_or_lookahead_overflow (W n : Nat) (p_en : Bool)
    (h1 : 1 ≤ n) (hn : n < 2 ^ 32) :
    ∃ r, fibo_seq_X W n p_en = some r ∧
      (r.overflow = true ↔ (r.n < n ∨ (2 ≤ n ∧ 2 ^ W ≤ Fib (n + 1)))) := by
  obtain ⟨m, ovf, hrun, hm1, hmn, hov, hiff, _⟩ := fibo_seq_X_spec W n p_en hn
  have hmle := hmn h1
  refine ⟨_, hrun, ?_⟩
  show ovf = true ↔ (m < n ∨ (2 ≤ n ∧ 2 ^ W ≤ Fib (n + 1)))
  constructor
  · intro ho
    rcases Nat.eq_or_lt_of_le hmle with h | h
    · subst h; exact Or.inr (hiff.mp ho)
    · exact Or.inl h
  · rintro (h | h)
    · exact hov h
    · rcases Nat.eq_or_lt_of_le hmle with h' | h'
      · subst h'; exact hiff.mpr h
      · exact hov h'

theorem flag_iff_short_or_lookahead_overflow_witness :
    ∃ r, fibo_seq_X 8192 11801 true = some r ∧
      (r.overflow = true ↔
        (r.n < 11801 ∨ (2 ≤ 11801 ∧ 2 ^ 8192 ≤ Fib (11801 + 1)))) :=
  flag_iff_short_or_lookahead_overflow 8192 11801 true (by decide) (by norm_num)

/-- C7: for every input `≥ 1`, the driver prints the "SUCCESS" summary exactly
when the final index returned by `fibo_seq_X` equals the requested length, and
the "ERROR: data overflow" summary otherwise; either summary reports the pair
`(m, F(m))`, where `m` is the index of the last `spit_fizz` call. -/
theorem main_reports_last_pair (digits cpu_seconds : String) (input : Int)
    (h1 : 1 ≤ input) (h2 : input < 2 ^ 31) :
    ∃ r, fibo_seq_X MY_UINT_BITS input.toNat true = some r ∧
      r.calls.getLast? = some (r.n, Fib r.n) ∧
      main digits cpu_seconds input
        = some (0, bannerText digits ++ r.out
            ++ (if r.n = input.toNat then successSummary r.n (Fib r.n)
                else overflowSummary r.n (Fib r.n))
            ++ timingLine cpu_seconds) := by
  have hmod : (input % 2 ^ 32).toNat = input.toNat := by
    rw [Int.emod_eq_of_lt (by omega) (by omega)]
  have hn : input.toNat < 2 ^ 32 := by omega
  obtain ⟨m, ovf, hrun, hm1, hmn, hov, hiff, _⟩ :=
    fibo_seq_X_spec MY_UINT_BITS input.toNat true hn
  have hmle := hmn (by omega)
  refine ⟨_, hrun, fibTrace_getLast m hm1, ?_⟩
  unfold main
  rw [if_neg (by omega)]
  simp only [hmod, hrun]
  by_cases hmeq : m = input.toNat
  · have hc : (ovf && decide (m < input.toNat)) = false := by simp [hmeq]
    rw [if_neg (by rw [hc]; exact Bool.false_ne_true), if_pos hmeq]
    refine congrArg (fun t => some ((0 : Int), t)) (String.ext ?_)
    simp only [bannerText, successSummary, timingLine, String.data_append,
      List.append_assoc]
    rfl
  · have hlt : m < input.toNat := by omega
    have hc : (ovf && decide (m < input.toNat)) = true := by simp [hov hlt, hlt]
    rw [if_pos hc, if_neg hmeq]
    refine congrArg (fun t => some ((0 : Int), t)) (String.ext ?_)
    simp only [bannerText, overflowSummary, timingLine, String.data_append,
      List.append_assoc]
    rfl

theorem main_reports_last_pair_witness :
    ∃ r, fibo_seq_X MY_UINT_BITS (12000 : Int).toNat true = some r ∧
      r.calls.getLast? = some (r.n, Fib r.n) ∧
      main "2466" "0.01" 12000
        = some (0, bannerText "2466" ++ r.out
            ++ (if r.n = (12000 : Int).toNat then successSummary r.n (Fib r.n)
                else overflowSummary r.n (Fib r.n))
            ++ timingLine "0.01") :=
  main_reports_last_pair "2466" "0.01" 12000 (by decide) (by decide)

/-- C8: `is_FiboPrime(n)` returns true if and only if `n` is one of the 49
entries of the `FiboPrimes` table (which is strictly increasing); in particular
it returns false for every `n > 2904353` and for `n = 1` and `n = 2`. -/
theorem is_FiboPrime_iff_in_table (n : Nat) :
    (is_FiboPrime n = true ↔ n ∈ FiboPrimes) ∧
    FiboPrimes.length = 49 ∧ FiboPrimes.Pairwise (· < ·) ∧
    (2904353 < n → is_FiboPrime n = false) ∧
    is_FiboPrime 1 = false ∧ is_FiboPrime 2 = false := by
  refine ⟨is_FiboPrime_iff n, rfl, FiboPrimes_strictly_increasing, ?_, by decide, by decide⟩
  intro hbig
  cases hval : is_FiboPrime n with
  | false => rfl
  | true =>
    have hmem := (is_FiboPrime_iff n).mp hval
    have hmax : ∀ x ∈ FiboPrimes, x ≤ 2904353 := by decide
    exact absurd (hmax n hmem) (by omega)

theorem is_FiboPrime_iff_in_table_witness : is_FiboPrime 2904354 = false :=
  (is_FiboPrime_iff_in_table 2904354).2.2.2.1 (by decide)

/-- C9: for every requested length and every operand width, the values passed
to `spit_fizz`, in index order `1, 2, ...`, are non-decreasing (also in runs
that end by overflow). -/
theorem values_nondecreasing (W n : Nat) (p_en : Bool) (hn : n < 2 ^ 32) :
    ∃ r, fibo_seq_X W n p_en = some r ∧
      r.calls.map Prod.fst = List.range' 1 r.n ∧
      (r.calls.map Prod.snd).Pairwise (· ≤ ·) := by
  obtain ⟨m, ovf, hrun, _⟩ := fibo_seq_X_spec W n p_en hn
  refine ⟨_, hrun, ?_, ?_⟩
  · simp [fibTrace, fibPairs, Function.comp_def]
  · simp only [fibTrace, fibPairs, List.map_map, List.pairwise_map]
    exact (List.pairwise_lt_range' 1 m).imp (fun h => Fib_mono (Nat.le_of_lt h))

theorem values_nondecreasing_witness :
    ∃ r, fibo_seq_X 64 100 true = some r ∧
      r.calls.map Prod.fst = List.range' 1 r.n ∧
      (r.calls.map Prod.snd).Pairwise (· ≤ ·) :=
  values_nondecreasing 64 100 true (by norm_num)

/-- C10: at the configured width of 8192 bits, for every requested length
`n ≥ 1` the returned flag is false exactly when `n < 11801`; the final index
never exceeds 11801 and is 11801 for every `n ≥ 11801`, because
`F(11801) < 2^8192 ≤ F(11802)`. -/
theorem reach_of_8192_bits (n : Nat) (p_en : Bool) (h1 : 1 ≤ n) (hn : n < 2 ^ 32) :
    MY_UINT_BITS = 8192 ∧
    (Fib 11801 < 2 ^ 8192 ∧ 2 ^ 8192 ≤ Fib 11802) ∧
    ∃ r, fibo_seq_X MY_UINT_BITS n p_en = some r ∧
      (r.overflow = false ↔ n < 11801) ∧ r.n ≤ 11801 ∧
      (11801 ≤ n → r.n = 11801) := by
  refine ⟨rfl, Fib_bounds_8192, ?_⟩
  rw [MY_UINT_BITS]
  by_cases hlt : n < 11801
  · have hle : Fib (n + 1) ≤ Fib 11801 := Fib_mono (by omega)
    have hle2 : Fib n ≤ Fib 11801 := Fib_mono (by omega)
    obtain ⟨ovf, hrun, hiff⟩ :=
      fibo_seq_X_fits 8192 n p_en h1 hn (Nat.lt_of_le_of_lt hle2 Fib_bounds_8192.1)
    refine ⟨_, hrun, ?_, Nat.le_of_lt hlt, fun h => absurd hlt (by omega)⟩
    show ovf = false ↔ n < 11801
    have hno : ¬ ovf = true := fun h =>
      absurd (hiff.mp h) (Nat.not_le.mpr (Nat.lt_of_le_of_lt hle Fib_bounds_8192.1))
    simp only [hlt, iff_true]
    cases ovf
    · rfl
    · exact absurd rfl hno
  · have hrun := fibo_seq_X_overflow 8192 11801 n p_en (by decide) (by omega) hn
      Fib_bounds_8192.1 Fib_bounds_8192.2
    refine ⟨_, hrun, ?_, Nat.le_refl _, fun _ => rfl⟩
    show true = false ↔ n < 11801
    simp [hlt]

theorem reach_of_8192_bits_witness :
    MY_UINT_BITS = 8192 ∧
    (Fib 11801 < 2 ^ 8192 ∧ 2 ^ 8192 ≤ Fib 11802) ∧
    ∃ r, fibo_seq_X MY_UINT_BITS 11801 true = some r ∧
      (r.overflow = false ↔ 11801 < 11801) ∧ r.n ≤ 11801 ∧
      (11801 ≤ 11801 → r.n = 11801) :=
  reach_of_8192_bits 11801 true (by decide) (by norm_num)

/-- C11: in every run with requested length `n ≥ 5` (on operands of at least
3 bits; every `ttmath` width is a multiple of the machine word), the output
starts with the five lines `"1  1"`, `"2  1"`, `"3  BuzzFizz!!  "`,
`"4  Buzz   "`, `"5  Fizz   "`, printed for the values 1, 1, 2, 3, 5 at the
indices 1..5. -/
theorem first_five_lines (W n : Nat) (hW : 3 ≤ W) (h5 : 5 ≤ n) (hn : n < 2 ^ 32) :
    ∃ r rest restCalls, fibo_seq_X W n true = some r ∧
      r.out = "1  1\n" ++ "2  1\n" ++ "3  BuzzFizz!!  \n" ++ "4  Buzz   \n"
                ++ "5  Fizz   \n" ++ rest ∧
      r.calls = [(1, 1), (2, 1), (3, 2), (4, 3), (5, 5)] ++ restCalls ∧
      is_FiboPrime 1 = false ∧ is_FiboPrime 3 = true ∧ is_FiboPrime 4 = true := by
  obtain ⟨m, ovf, hrun, hm1, hmn, hov, hiff, _⟩ := fibo_seq_X_spec W n true hn
  have hpow : 2 ^ 3 ≤ 2 ^ W := Nat.pow_le_pow_right (by decide) hW
  have hm5 : 5 ≤ m := by
    by_contra hc
    have h2 := (hiff.mp (hov (by omega))).2
    have h3 : Fib (m + 1) ≤ Fib 5 := Fib_mono (by omega)
    have e5 : Fib 5 = 5 := rfl
    omega
  obtain ⟨k, rfl⟩ : ∃ k, m = 5 + k := ⟨m - 5, by omega⟩
  refine ⟨_, printed true (fibPairs (1 + 5) k), fibPairs (1 + 5) k, hrun, ?_, ?_,
    by decide, by decide, by decide⟩
  · show printed true (fibTrace (5 + k)) = _
    rw [fibTrace, fibPairs_append, printed_append]
    have h : printed true (fibPairs 1 5)
        = "1  1\n" ++ "2  1\n" ++ "3  BuzzFizz!!  \n" ++ "4  Buzz   \n"
            ++ "5  Fizz   \n" := by decide
    rw [h]
  · show fibTrace (5 + k) = _
    rw [fibTrace, fibPairs_append]
    have h : fibPairs 1 5 = [(1, 1), (2, 1), (3, 2), (4, 3), (5, 5)] := by decide
    rw [h]

theorem first_five_lines_witness :
    ∃ r rest restCalls, fibo_seq_X 8192 6 true = some r ∧
      r.out = "1  1\n" ++ "2  1\n" ++ "3  BuzzFizz!!  \n" ++ "4  Buzz   \n"
                ++ "5  Fizz   \n" ++ rest ∧
      r.calls = [(1, 1), (2, 1), (3, 2), (4, 3), (5, 5)] ++ restCalls ∧
      is_FiboPrime 1 = false ∧ is_FiboPrime 3 = true ∧ is_FiboPrime 4 = true :=
  first_five_lines 8192 6 (by decide) (by decide) (by norm_num)

/-- C12: for requested length `n = 1` and every operand width `W`,
`fibo_seq_X` prints exactly one line, `"1  1"` (index 1, seed value 1), and
returns final index 1, result 1 and the flag false. -/
theorem length_one_run (W : Nat) :
    fibo_seq_X W 1 true
      = some { n := 1, result := 1, overflow := false, out := "1  1\n",
               calls := [(1, 1)] } := by
  have hloop : fibo_loop W 1 true 1
      { i := 1, result := 1, b := 1, overflow := false, out := "", calls := [] }
      = some { i := 1, result := 1, b := 1, overflow := false, out := "", calls := [] } :=
    fibo_loop_stop W 1 true 1 _ (fun h => absurd h.1 (Nat.lt_irrefl 1))
  have hline : spit_fizz 1 1 true = "1  1\n" := by decide
  simp only [fibo_seq_X, hloop, hline]
  rfl

/-- C13: for every input less than 1, the driver returns exit status 0 having
written the banner and the prompt and nothing else (no sequence line, no
summary, no timing line). -/
theorem main_rejects_nonpositive (digits cpu_seconds : String) (input : Int)
    (h : input < 1) :
    main digits cpu_seconds input = some (0, bannerText digits) := by
  unfold main
  rw [if_pos h]
  refine congrArg (fun t => some ((0 : Int), t)) (String.ext ?_)
  simp only [bannerText, String.data_append, List.append_assoc]
  rfl

theorem main_rejects_nonpositive_witness :
    main "2466" "0.01" 0 = some (0, bannerText "2466") :=
  main_rejects_nonpositive "2466" "0.01" 0 (by decide)

/-- C14 (counterexample): at the configured width, the state after 11799
rounds of the loop body is at index 11800 with the flag clear; the addition of
the next round overflows, and that round changes `result`. -/
theorem overflow_step_changes_result :
    ∃ s : FiboState,
      (fibo_body MY_UINT_BITS false)^[11799]
          { i := 1, result := 1, b := 1, overflow := false, out := "", calls := [] } = s ∧
      s.i = 11800 ∧ s.overflow = false ∧
      (UInt_Add MY_UINT_BITS s.b s.result).2 = true ∧
      (fibo_body MY_UINT_BITS false s).result ≠ s.result := by
  have h := fibo_body_iterate 8192 false 11799 Fib_bounds_8192.1 (by norm_num)
  have hnext : Fib 11802 = Fib 11801 + Fib 11800 := by
    simpa using Fib_add_two 11800
  have hstep : Fib 11801 = Fib 11800 + Fib 11799 := by
    simpa using Fib_add_two 11799
  have hsum : ¬ Fib 11801 + Fib 11800 < 2 ^ 8192 := by
    have := Fib_bounds_8192.2
    omega
  have hpos : 1 ≤ Fib 11799 := Fib_mono (show 1 ≤ 11799 by decide)
  refine ⟨{ i := 11800, result := Fib 11800, b := Fib 11801, overflow := false,
            out := printed false (fibPairs 1 11799), calls := fibPairs 1 11799 },
    h, rfl, rfl, ?_, ?_⟩
  · show (UInt_Add 8192 (Fib 11801) (Fib 11800)).2 = true
    unfold UInt_Add
    rw [if_neg hsum]
  · rw [fibo_body_result]
    show Fib 11801 ≠ Fib 11800
    omega

/-- C14 (amended): in the loop step of `fibo_seq_X` whose fixed-width addition
overflows (the round at index `i = k+1`, entered after `k` rounds without
carry with `result = F(i)` and `b = F(i+1)`), the generator sets the flag and
the loop ends after that step, and `result` takes the value `b` held before
the addition, `F(i+1)`, the last Fibonacci number that fits in `W` bits; on
operands of at least 2 bits this is greater than the value `F(i)` that
`result` had before the step.  The run then returns index `i+1` and
`F(i+1)`. -/
theorem overflow_step_takes_lookahead (W n k fuel : Nat) (p_en : Bool)
    (hW : 2 ≤ W) (hn : n < 2 ^ 32) (hidx : k + 1 < n)
    (hflag : (fibo_state_after W p_en k).overflow = false)
    (hcarry : (UInt_Add W (fibo_state_after W p_en k).b
        (fibo_state_after W p_en k).result).2 = true) :
    ((fibo_state_after W p_en k).i = k + 1 ∧
      (fibo_state_after W p_en k).result = Fib (k + 1) ∧
      (fibo_state_after W p_en k).b = Fib (k + 2)) ∧
    (fibo_state_after W p_en (k + 1)).result = Fib (k + 2) ∧
    (Fib (k + 2) < 2 ^ W ∧ 2 ^ W ≤ Fib (k + 3)) ∧
    (fibo_state_after W p_en k).result < (fibo_state_after W p_en (k + 1)).result ∧
    (fibo_state_after W p_en (k + 1)).overflow = true ∧
    fibo_loop W n p_en (k + 1 + fuel) (fibo_state_after W p_en 0)
      = some (fibo_state_after W p_en (k + 1)) ∧
    fibo_seq_X W n p_en
      = some { n := k + 2, result := Fib (k + 2), overflow := true,
               out := printed p_en (fibTrace (k + 2)), calls := fibTrace (k + 2) } := by
  have hsucc : fibo_state_after W p_en (k + 1)
      = fibo_body W p_en (fibo_state_after W p_en k) := by
    unfold fibo_state_after
    rw [Function.iterate_succ_apply']
  have hrun : (Fib (k + 2) < 2 ^ W) →
      fibo_loop W n p_en (k + 1 + fuel) (fibo_state_after W p_en 0)
        = fibo_loop W n p_en fuel (fibo_state_after W p_en (k + 1)) := by
    intro hfit
    refine fibo_loop_iterate W n p_en (k + 1) fuel _ fun j hj => ?_
    have hj2 : Fib (j + 2) < 2 ^ W :=
      Nat.lt_of_le_of_lt (Fib_mono (by omega)) hfit
    have hs : (fibo_body W p_en)^[j] (fibo_state_after W p_en 0)
        = { i := j + 1, result := Fib (j + 1), b := Fib (j + 2), overflow := false,
            out := printed p_en (fibPairs 1 j), calls := fibPairs 1 j } :=
      fibo_body_iterate W p_en j hj2 (by omega)
    rw [hs]
    exact ⟨by show j + 1 < n; omega, rfl⟩
  obtain ⟨hstate, hfits⟩ := fibo_body_iterate_clear W p_en k (by omega) hflag
  have hst : fibo_state_after W p_en k
      = { i := k + 1, result := Fib (k + 1), b := Fib (k + 2), overflow := false,
          out := printed p_en (fibPairs 1 k), calls := fibPairs 1 k } := hstate
  rw [hsucc]
  rw [hst] at hcarry ⊢
  have hsum : 2 ^ W ≤ Fib (k + 2) + Fib (k + 1) :=
    (UInt_Add_carry_iff W _ _).mp hcarry
  have hnext : 2 ^ W ≤ Fib (k + 3) := by rw [Fib_add_two]; exact hsum
  have h4 : 2 ^ 2 ≤ 2 ^ W := Nat.pow_le_pow_right (by decide) hW
  have hk1 : 1 ≤ k := by
    by_contra hc
    have hk0 : k = 0 := by omega
    subst hk0
    have e1 : Fib (0 + 2) = 1 := rfl
    have e2 : Fib (0 + 1) = 1 := rfl
    omega
  have hfit : Fib (k + 2) < 2 ^ W := hfits hk1
  have hlt : Fib (k + 1) < Fib (k + 2) := by
    obtain ⟨j, rfl⟩ : ∃ j, k = j + 1 := ⟨k - 1, by omega⟩
    have hpos : 1 ≤ Fib (j + 1) := Fib_mono (show 1 ≤ j + 1 by omega)
    have := Fib_add_two (j + 1)
    omega
  have hov : (fibo_body W p_en
      { i := k + 1, result := Fib (k + 1), b := Fib (k + 2), overflow := false,
        out := printed p_en (fibPairs 1 k), calls := fibPairs 1 k }).overflow = true := by
    rw [fibo_body_flag, hcarry]; rfl
  refine ⟨⟨rfl, rfl, rfl⟩, fibo_body_result _ _ _, ⟨hfit, hnext⟩, ?_, hov, ?_, ?_⟩
  · rw [fibo_body_result]; exact hlt
  · rw [hrun hfit, hsucc, hst]
    exact fibo_loop_stop W n p_en fuel _ (by simp [hov])
  · exact fibo_seq_X_overflow W (k + 2) n p_en (by omega) (by omega) hn hfit hnext

theorem overflow_step_takes_lookahead_witness :
    ((fibo_state_after 64 false 91).i = 91 + 1 ∧
      (fibo_state_after 64 false 91).result = Fib (91 + 1) ∧
      (fibo_state_after 64 false 91).b = Fib (91 + 2)) ∧
    (fibo_state_after 64 false (91 + 1)).result = Fib (91 + 2) ∧
    (Fib (91 + 2) < 2 ^ 64 ∧ 2 ^ 64 ≤ Fib (91 + 3)) ∧
    (fibo_state_after 64 false 91).result < (fibo_state_after 64 false (91 + 1)).result ∧
    (fibo_state_after 64 false (91 + 1)).overflow = true ∧
    fibo_loop 64 100 false (91 + 1 + 0) (fibo_state_after 64 false 0)
      = some (fibo_state_after 64 false (91 + 1)) ∧
    fibo_seq_X 64 100 false
      = some { n := 91 + 2, result := Fib (91 + 2), overflow := true,
               out := printed false (fibTrace (91 + 2)), calls := fibTrace (91 + 2) } :=
  overflow_step_takes_lookahead 64 100 91 0 false (by decide) (by decide) (by decide)
    (by
      rw [fibo_state_after,
        fibo_body_iterate 64 false 91 (by rw [Fib_eq_fib]; norm_num) (by norm_num)])
    (by
      rw [fibo_state_after,
        fibo_body_iterate 64 false 91 (by rw [Fib_eq_fib]; norm_num) (by norm_num)]
      exact (UInt_Add_carry_iff 64 _ _).mpr (by rw [Fib_eq_fib, Fib_eq_fib]; norm_num))

/-- C15: for every requested length and operand width, the run with
`p_en = false` writes no characters at all and otherwise returns exactly what
the run with `p_en = true` returns: the same final index, result value and
flag (after the same `spit_fizz` calls). -/
theorem suppression_changes_only_output (W n : Nat) (hn : n < 2 ^ 32) :
    ∃ r q, fibo_seq_X W n true = some r ∧ fibo_seq_X W n false = some q ∧
      q.out = "" ∧ q.n = r.n ∧ q.result = r.result ∧ q.overflow = r.overflow ∧
      q.calls = r.calls := by
  obtain ⟨m, ovf, hrun, _⟩ := fibo_seq_X_spec W n true hn
  refine ⟨_, { n := m, result := Fib m, overflow := ovf, out := "", calls := fibTrace m },
    hrun, ?_, rfl, rfl, rfl, rfl, rfl⟩
  rw [fibo_seq_X_quiet, hrun]
  rfl

theorem suppression_changes_only_output_witness :
    ∃ r q, fibo_seq_X 8192 12000 true = some r ∧ fibo_seq_X 8192 12000 false = some q ∧
      q.out = "" ∧ q.n = r.n ∧ q.result = r.result ∧ q.overflow = r.overflow ∧
      q.calls = r.calls :=
  suppression_changes_only_output 8192 12000 (by norm_num)

/-- C16: on the indices 1..50 the table is exact: `is_FiboPrime(n)` is true if
and only if the Fibonacci number `F(n)` is prime; the tabulated indices in
that range are 3, 4, 5, 7, 11, 13, 17, 23, 29, 43, 47. -/
theorem table_exact_upto_50 (n : Nat) (h1 : 1 ≤ n) (h50 : n ≤ 50) :
    (is_FiboPrime n = true ↔ Nat.Prime (Fib n)) ∧
    FiboPrimes.filter (fun i => decide (i ≤ 50))
      = [3, 4, 5, 7, 11, 13, 17, 23, 29, 43, 47] := by
  refine ⟨?_, by decide⟩
  rw [is_FiboPrime_iff, Fib_eq_fib]
  interval_cases n
  all_goals first
    | exact tabulated_43
    | exact tabulated_47
    | norm_num [FiboPrimes]

theorem table_exact_upto_50_witness :
    (is_FiboPrime 47 = true ↔ Nat.Prime (Fib 47)) ∧
    FiboPrimes.filter (fun i => decide (i ≤ 50))
      = [3, 4, 5, 7, 11, 13, 17, 23, 29, 43, 47] :=
  table_exact_upto_50 47 (by decide) (by decide)

/-- C17: for every entry `i` of the `FiboPrimes` table other than 4 and 5,
the Fibonacci number `F(i)` is divisible by neither 3 nor 5 and
`spit_fizz(i, F(i))` writes the label `"BuzzFizz!!  "`; for the entries 4 and
5 it writes `"Buzz   "` and `"Fizz   "`. -/
theorem only_four_and_five_shadowed (i : Nat) (hi : i ∈ FiboPrimes) :
    (i ≠ 4 → i ≠ 5 →
      ¬ 3 ∣ Fib i ∧ ¬ 5 ∣ Fib i ∧
      spit_fizz i (Fib i) true = dec i ++ "  " ++ "BuzzFizz!!  " ++ "\n") ∧
    (4 ∈ FiboPrimes ∧ spit_fizz 4 (Fib 4) true = "4" ++ "  " ++ "Buzz   " ++ "\n") ∧
    (5 ∈ FiboPrimes ∧ spit_fizz 5 (Fib 5) true = "5" ++ "  " ++ "Fizz   " ++ "\n") := by
  refine ⟨?_, ⟨by decide, by decide⟩, ⟨by decide, by decide⟩⟩
  intro h4 h5
  obtain ⟨r4, r5⟩ := FiboPrimes_residues i hi h4 h5
  have n3 : ¬ 3 ∣ Fib i := not_three_dvd_Fib i (fun h => r4 (Nat.mod_eq_zero_of_dvd h))
  have n5 : ¬ 5 ∣ Fib i := not_five_dvd_Fib i (fun h => r5 (Nat.mod_eq_zero_of_dvd h))
  exact ⟨n3, n5, spit_fizz_prime_label i (Fib i) n3 n5 ((is_FiboPrime_iff i).mpr hi)⟩

theorem only_four_and_five_shadowed_witness :
    (2904353 ≠ 4 → 2904353 ≠ 5 →
      ¬ 3 ∣ Fib 2904353 ∧ ¬ 5 ∣ Fib 2904353 ∧
      spit_fizz 2904353 (Fib 2904353) true
        = dec 2904353 ++ "  " ++ "BuzzFizz!!  " ++ "\n") ∧
    (4 ∈ FiboPrimes ∧ spit_fizz 4 (Fib 4) true = "4" ++ "  " ++ "Buzz   " ++ "\n") ∧
    (5 ∈ FiboPrimes ∧ spit_fizz 5 (Fib 5) true = "5" ++ "  " ++ "Fizz   " ++ "\n") :=
  only_four_and_five_shadowed 2904353 (by decide)

/-- C18: `fibo_seq_X` does not reject a requested length of 0: it prints the
line for index 1 and returns final index 1, result 1 and the flag false.  For
every requested length the final index is at least 1; it exceeds the request
exactly when the request is 0, and is at most `n` for every `n ≥ 1`. -/
theorem length_zero_run (W n : Nat) (hn : n < 2 ^ 32) :
    fibo_seq_X W 0 true
      = some { n := 1, result := 1, overflow := false, out := "1  1\n",
               calls := [(1, 1)] } ∧
    ∃ r, fibo_seq_X W n true = some r ∧ 1 ≤ r.n ∧ (n < r.n ↔ n = 0) ∧
      (1 ≤ n → r.n ≤ n) := by
  refine ⟨rfl, ?_⟩
  obtain ⟨m, ovf, hrun, hm1, hmn, _⟩ := fibo_seq_X_spec W n true hn
  refine ⟨_, hrun, hm1, ?_, hmn⟩
  show n < m ↔ n = 0
  constructor
  · intro h
    by_contra hc
    have := hmn (by omega)
    omega
  · intro h; omega

theorem length_zero_run_witness :
    fibo_seq_X 8192 0 true
      = some { n := 1, result := 1, overflow := false, out := "1  1\n",
               calls := [(1, 1)] } ∧
    ∃ r, fibo_seq_X 8192 0 true = some r ∧ 1 ≤ r.n ∧ (0 < r.n ↔ 0 = 0) ∧
      (1 ≤ 0 → r.n ≤ 0) :=
  length_zero_run 8192 0 (by norm_num)

end FizzBuzz
